import Mathlib

/-!
# Image-to-PDF assembler: `backend/utils/pfdGenerator.js`

A shallow embedding of `generatePdfFromImages`.  JavaScript numbers are
modelled by the rationals they denote, every arithmetic result being rounded
as binary64 rounds it; thrown values by what line 106 can read of them;
`await`ed library calls by fallible functions supplied by an environment; and
the side effects of a call by the list of library calls it performs.
-/

namespace PdfGenerator

/-! ## Arithmetic of JavaScript numbers -/

/-- Rounding to the nearest integer, a tie going to the even neighbour. -/
def roundHalfEven (x : ℚ) : ℤ :=
  if x - ⌊x⌋ < 1 / 2 then ⌊x⌋
  else if 1 / 2 < x - ⌊x⌋ then ⌊x⌋ + 1
  else if ⌊x⌋ % 2 = 0 then ⌊x⌋
  else ⌊x⌋ + 1

/-- Rounding to binary64 (IEEE 754 round-to-nearest, ties-to-even): the
nearest number with 53 significant binary digits.  The exponent is not
bounded, so the model is that of JavaScript as long as the non-zero
magnitudes stay between `2^-1022` and `2^1024`, as those computed from pixel
dimensions do. -/
def roundDouble (q : ℚ) : ℚ :=
  if q = 0 then 0
  else (roundHalfEven (q / 2 ^ (Int.log 2 |q| - 52)) : ℚ) * 2 ^ (Int.log 2 |q| - 52)

/-- An arithmetic: the rounding applied to the exact result of each
operation. -/
structure Arithmetic where
  round : ℚ → ℚ

/-- The arithmetic of the program: JavaScript numbers are binary64. -/
def binary64 : Arithmetic := { round := roundDouble }

/-- Arithmetic without rounding, in which the specification works out its
examples. -/
def exact : Arithmetic := { round := fun q => q }

/-! ## Layout arithmetic (lines 47-78) -/

/-- A4 width in points (line 53). -/
def maxWidth : ℚ := 595

/-- A4 height in points (line 54). -/
def maxHeight : ℚ := 842

/-- The values computed for one image between lines 53 and 78: the size given
to `addPage`, and the options given to `drawImage`. -/
structure PageLayout where
  pageWidth : ℚ
  pageHeight : ℚ
  imgWidth : ℚ
  imgHeight : ℚ
  x : ℚ
  y : ℚ
deriving DecidableEq

/-- Line 65: `Math.min(widthRatio, heightRatio)` with the ratios of lines
63 and 64.  A ratio whose divisor is 0 is `Infinity` in JavaScript, and the
minimum is then the other ratio; line 62 lets no image with both dimensions 0
reach this line. -/
def scale (A : Arithmetic) (width height : ℚ) : ℚ :=
  let widthRatio := A.round (maxWidth / width)
  let heightRatio := A.round (maxHeight / height)
  if width = 0 then heightRatio
  else if height = 0 then widthRatio
  else min widthRatio heightRatio

/-- Lines 53-78 of `generatePdfFromImages`, for an image of the given
dimensions: the defaults of lines 56-59, overwritten by the branch of line 62,
and the centring of lines 77-78. -/
def computeLayout (A : Arithmetic) (width height : ℚ) : PageLayout :=
  let (pageWidth, pageHeight, imgWidth, imgHeight) :=
    if width > maxWidth ∨ height > maxHeight then
      (maxWidth, maxHeight,
        A.round (width * scale A width height), A.round (height * scale A width height))
    else
      (width, height, width, height)
  let x := A.round (A.round (pageWidth - imgWidth) / 2)
  let y := A.round (A.round (pageHeight - imgHeight) / 2)
  { pageWidth := pageWidth, pageHeight := pageHeight
    imgWidth := imgWidth, imgHeight := imgHeight
    x := x, y := y }

/-- The layout rule as section 4.1 step 3 of the specification words it,
with the centring formula of section 3, in a given arithmetic. -/
def specLayout (A : Arithmetic) (width height : ℚ) : PageLayout :=
  if width ≤ 595 ∧ height ≤ 842 then
    { pageWidth := width, pageHeight := height
      imgWidth := width, imgHeight := height
      x := A.round (A.round (width - width) / 2), y := A.round (A.round (height - height) / 2) }
  else
    let s := min (A.round (595 / width)) (A.round (842 / height))
    { pageWidth := 595, pageHeight := 842
      imgWidth := A.round (width * s), imgHeight := A.round (height * s)
      x := A.round (A.round (595 - A.round (width * s)) / 2)
      y := A.round (A.round (842 - A.round (height * s)) / 2) }

/-! ## Library functions used by the dispatch (lines 32, 96) -/

/-- Loop state of Node's POSIX `path.extname`; `-1` marks an index not yet
found. -/
structure ExtnameState where
  startDot : Int
  startPart : Int
  endPos : Int
  matchedSlash : Bool
  preDotState : Int
deriving DecidableEq

/-- The backward scan of Node's POSIX `path.extname`, over the characters of
the path paired with their indices, last character first.  A separator met
after the last path component has started ends the scan. -/
def extnameScan : List (Nat × Char) → ExtnameState → ExtnameState
  | [], s => s
  | (i, code) :: rest, s =>
    if code = '/' then
      if s.matchedSlash = false then { s with startPart := (i : Int) + 1 }
      else extnameScan rest s
    else
      let s1 : ExtnameState :=
        if s.endPos = -1 then { s with matchedSlash := false, endPos := (i : Int) + 1 } else s
      let s2 : ExtnameState :=
        if code = '.' then
          if s1.startDot = -1 then { s1 with startDot := (i : Int) }
          else if s1.preDotState ≠ 1 then { s1 with preDotState := 1 }
          else s1
        else if s1.startDot ≠ -1 then { s1 with preDotState := -1 }
        else s1
      extnameScan rest s2

/-- Node's POSIX `path.extname`: the part of the last path component from its
last dot on, or the empty string when that component has no dot, starts with
its only dot, or is `..`. -/
def extname (path : String) : String :=
  let s := extnameScan path.data.enum.reverse
    { startDot := -1, startPart := 0, endPos := -1, matchedSlash := true, preDotState := 0 }
  if s.startDot = -1 ∨ s.endPos = -1 ∨ s.preDotState = 0 ∨
      (s.preDotState = 1 ∧ s.startDot = s.endPos - 1 ∧ s.startDot = s.startPart + 1) then
    ""
  else
    String.mk ((path.data.drop s.startDot.toNat).take (s.endPos - s.startDot).toNat)

/-- The method `String.prototype.toLowerCase` on the letters `A`-`Z`; the model keeps
every other character, as JavaScript does for the rest of ASCII. -/
def toLowerCase (s : String) : String :=
  String.mk (s.data.map Char.toLower)

/-! ## Documents, the environment and the effects of a call -/

/-- Contents of a file. -/
abbrev Bytes := List Nat

/-- What `embedPng` and `embedJpg` return: the pixel dimensions read on
line 48, whole numbers, and the decoded pixel data. -/
structure PDFImage where
  width : Nat
  height : Nat
  pixels : Bytes
deriving DecidableEq

/-- One `drawImage` call on a page (lines 81-86). -/
structure DrawnImage where
  image : PDFImage
  x : ℚ
  y : ℚ
  width : ℚ
  height : ℚ
deriving DecidableEq

/-- A page of the document: its size and what was drawn on it. -/
structure PDFPage where
  width : ℚ
  height : ℚ
  drawn : List DrawnImage
deriving DecidableEq

/-- The document under construction: its pages, in order. -/
structure PDFDocument where
  pages : List PDFPage
deriving DecidableEq

/-- The call `PDFDocument.create()` (line 23): a document without pages. -/
def PDFDocument.create : PDFDocument := { pages := [] }

/-- The call `pdfDoc.addPage([pageWidth, pageHeight])` (line 74): appends an empty page
and returns it, here as its index. -/
def PDFDocument.addPage (pdfDoc : PDFDocument) (pageWidth pageHeight : ℚ) : PDFDocument × Nat :=
  ({ pages := pdfDoc.pages ++ [{ width := pageWidth, height := pageHeight, drawn := [] }] },
    pdfDoc.pages.length)

/-- Applies `f` to the page at index `n`. -/
def modifyPage (f : PDFPage → PDFPage) : Nat → List PDFPage → List PDFPage
  | _, [] => []
  | 0, p :: ps => f p :: ps
  | n + 1, p :: ps => p :: modifyPage f n ps

/-- The call `page.drawImage(image, options)` (lines 81-86) on the page with the given
index. -/
def PDFDocument.drawImage (pdfDoc : PDFDocument) (page : Nat) (image : PDFImage)
    (x y width height : ℚ) : PDFDocument :=
  { pages := modifyPage
      (fun p => { p with drawn := p.drawn ++
        [{ image := image, x := x, y := y, width := width, height := height }] })
      page pdfDoc.pages }

/-- A thrown JavaScript value, as far as line 106 can tell values apart. -/
inductive Thrown where
  /-- An object with a `message` property that converts to the given string,
  such as `new Error(message)`. -/
  | error (message : String)
  /-- A value other than `null` and `undefined` that has no `message`
  property, such as a string. -/
  | bare
  /-- The value `null`. -/
  | null
  /-- The value `undefined`. -/
  | undefined
deriving DecidableEq

/-- The property access `error.message` of line 106: `none` is `undefined`,
and reading a property of `null` or `undefined` throws a `TypeError`. -/
def Thrown.message : Thrown → Except Thrown (Option String)
  | .error message => .ok (some message)
  | .bare => .ok none
  | .null => .error (.error "Cannot read properties of null (reading \x27message\x27)")
  | .undefined => .error (.error "Cannot read properties of undefined (reading \x27message\x27)")

/-- The text a template literal substitutes for a string or for `undefined`. -/
def templateValue : Option String → String
  | some s => s
  | none => "undefined"

/-- The library calls the function awaits, and what its surroundings are:
each call either returns or throws. -/
structure Env where
  /-- The call `fs.readFile(imagePath)`. -/
  readFile : String → Except Thrown Bytes
  /-- The call `pdfDoc.embedPng(imageBytes)`. -/
  embedPng : Bytes → Except Thrown PDFImage
  /-- The call `pdfDoc.embedJpg(imageBytes)`. -/
  embedJpg : Bytes → Except Thrown PDFImage
  /-- The call `pdfDoc.save()`. -/
  save : PDFDocument → Except Thrown Bytes
  /-- The reading of `Date.now()` on line 96. -/
  now : Nat
  /-- The directory of the module, `__dirname`. -/
  dirname : String
  /-- The call `path.join` with three segments. -/
  join : String → String → String → String
  /-- The call `fs.writeFile(outputPath, pdfBytes)`. -/
  writeFile : String → Bytes → Except Thrown Unit

/-- A library call with an effect outside the function. -/
inductive Effect where
  | createDocument
  | readFile (path : String)
  | embedPng (imageBytes : Bytes)
  | embedJpg (imageBytes : Bytes)
  | save (pdfDoc : PDFDocument)
  | writeFile (outputPath : String) (pdfBytes : Bytes)
  | consoleError (error : Thrown)
deriving DecidableEq

/-- An execution: the value returned or the value thrown, and the effects
performed up to that point, in order. -/
structure Run (α : Type) where
  result : Except Thrown α
  effects : List Effect

/-- Returning a value without any effect. -/
def Run.pure {α : Type} (a : α) : Run α := { result := .ok a, effects := [] }

/-- The statement `throw value`. -/
def Run.throw {α : Type} (value : Thrown) : Run α := { result := .error value, effects := [] }

/-- An evaluation without effect that returns or throws. -/
def Run.eval {α : Type} (outcome : Except Thrown α) : Run α := { result := outcome, effects := [] }

/-- Sequencing: a thrown value skips what follows and keeps the effects
performed before it. -/
def Run.bind {α β : Type} (r : Run α) (f : α → Run β) : Run β :=
  match r.result with
  | .error value => { result := .error value, effects := r.effects }
  | .ok a => { result := (f a).result, effects := r.effects ++ (f a).effects }

instance : Monad Run where
  pure := Run.pure
  bind := Run.bind

/-- An awaited library call: the effect is performed, then the call returns
or throws. -/
def Run.call {α : Type} (e : Effect) (outcome : Except Thrown α) : Run α :=
  { result := outcome, effects := [e] }

/-- The statement `try body catch (error) handler`. -/
def Run.tryCatch {α : Type} (body : Run α) (handler : Thrown → Run α) : Run α :=
  match body.result with
  | .ok a => { result := .ok a, effects := body.effects }
  | .error value =>
    { result := (handler value).result, effects := body.effects ++ (handler value).effects }

/-! ## `generatePdfFromImages` -/

/-- Lines 30-45: the image is embedded by the decoder its extension names. -/
def embedImage (env : Env) (imagePath : String) (imageBytes : Bytes) : Run PDFImage :=
  let ext := toLowerCase (extname imagePath)
  if ext = ".png" then
    Run.call (.embedPng imageBytes) (env.embedPng imageBytes)
  else if ext = ".jpg" ∨ ext = ".jpeg" then
    Run.call (.embedJpg imageBytes) (env.embedJpg imageBytes)
  else if ext = ".webp" then
    Run.throw (.error
      "WebP format requires additional processing. Please convert to JPG or PNG first.")
  else
    Run.throw (.error ("Unsupported image format: " ++ ext))

/-- Lines 27-45: the file is read, then embedded. -/
def loadImage (env : Env) (imagePath : String) : Run PDFImage := do
  let imageBytes ← Run.call (.readFile imagePath) (env.readFile imagePath)
  embedImage env imagePath imageBytes

/-- Lines 47-86: a page of the computed size is added and the image is drawn
on it at the computed place. -/
def drawOnNewPage (pdfDoc : PDFDocument) (image : PDFImage) : PDFDocument :=
  let layout := computeLayout binary64 image.width image.height
  let (pdfDoc, page) := pdfDoc.addPage layout.pageWidth layout.pageHeight
  pdfDoc.drawImage page image layout.x layout.y layout.imgWidth layout.imgHeight

/-- The loop of lines 26-87 over the remaining paths. -/
def processImages (env : Env) : PDFDocument → List String → Run PDFDocument
  | pdfDoc, [] => pure pdfDoc
  | pdfDoc, imagePath :: rest => do
    let image ← loadImage env imagePath
    processImages env (drawOnNewPage pdfDoc image) rest

/-- Line 96: the file name, with the reading of `Date.now()` in decimal. -/
def fileName (now : Nat) : String :=
  "pdf-" ++ Nat.repr now ++ ".pdf"

/-- Lines 93-97: the output path. -/
def outputPath (env : Env) : String :=
  env.join env.dirname "../uploads" (fileName env.now)

/-- Lines 22-102: the body of the `try`. -/
def generateBody (env : Env) (imagePaths : List String) : Run String := do
  let pdfDoc ← Run.call .createDocument (.ok PDFDocument.create)
  let pdfDoc ← processImages env pdfDoc imagePaths
  let pdfBytes ← Run.call (.save pdfDoc) (env.save pdfDoc)
  let _ ← Run.call (.writeFile (outputPath env) pdfBytes) (env.writeFile (outputPath env) pdfBytes)
  pure (outputPath env)

/-- Lines 104-107: the `catch` block logs the value caught and throws a new
`Error` whose message is built from the `message` property of that value. -/
def catchBlock (error : Thrown) : Run String := do
  let _ ← Run.call (.consoleError error) (.ok ())
  let message ← Run.eval error.message
  Run.throw (.error ("Failed to generate PDF: " ++ templateValue message))

/-- The function `generatePdfFromImages` (lines 16-108); `none` stands for a
`null` or `undefined` argument. -/
def generatePdfFromImages (env : Env) (imagePaths : Option (List String)) : Run String :=
  if imagePaths = none ∨ (imagePaths.getD []).length = 0 then
    Run.throw (.error "No images provided for PDF generation")
  else
    Run.tryCatch (generateBody env (imagePaths.getD [])) catchBlock

/-! ## Notions used to state the properties -/

/-- The page that lines 47-86 build for an image: the page size and the one
drawing of the computed layout. -/
def pageFor (image : PDFImage) : PDFPage :=
  let layout := computeLayout binary64 image.width image.height
  { width := layout.pageWidth
    height := layout.pageHeight
    drawn := [{ image := image, x := layout.x, y := layout.y
                width := layout.imgWidth, height := layout.imgHeight }] }

/-- The path is a valid input yielding `image`: its extension is `.png`,
`.jpg` or `.jpeg` in some letter case, its file can be read, and the decoder
of that extension decodes the bytes read to `image`. -/
def Decodes (env : Env) (imagePath : String) (image : PDFImage) : Prop :=
  ∃ imageBytes, env.readFile imagePath = .ok imageBytes ∧
    ((toLowerCase (extname imagePath) = ".png" ∧ env.embedPng imageBytes = .ok image) ∨
     ((toLowerCase (extname imagePath) = ".jpg" ∨ toLowerCase (extname imagePath) = ".jpeg") ∧
        env.embedJpg imageBytes = .ok image))

/-- Whether the effect is a call of `fs.writeFile`. -/
def Effect.isWriteFile : Effect → Bool
  | .writeFile _ _ => true
  | _ => false

/-- What the `catch` block throws when it catches `cause`. -/
def rethrown (cause : Thrown) : Thrown :=
  match cause.message with
  | .ok message => .error ("Failed to generate PDF: " ++ templateValue message)
  | .error typeError => typeError

/-- The number a decimal digit character stands for. -/
def digitValue (c : Char) : Nat := c.toNat - 48

/-- The number a list of decimal digits denotes when read from `acc` on. -/
def decimalValue (acc : Nat) (digits : List Char) : Nat :=
  digits.foldl (fun a c => a * 10 + digitValue c) acc

/-! ## A sample environment -/

/-- A small file system, decoders that read the dimensions from the first two
bytes and throw on shorter files (the PNG decoder a string, the JPEG decoder
an `Error`), and a serializer that counts pages. -/
def sampleEnv (now : Nat) : Env where
  readFile := fun p =>
    if p = "a.png" then .ok [300, 300, 7]
    else if p = "B.JPG" then .ok [1000, 2000, 9]
    else if p = "c.webp" then .ok [10, 10]
    else if p = "d.gif" then .ok [10, 10]
    else if p = "bad.png" then .ok [1]
    else .error (.error ("ENOENT: no such file or directory, open " ++ p))
  embedPng := fun b =>
    match b with
    | w :: h :: px => .ok { width := w, height := h, pixels := px }
    | _ => .error .bare
  embedJpg := fun b =>
    match b with
    | w :: h :: px => .ok { width := w, height := h, pixels := px }
    | _ => .error (.error "SOI not found in JPEG")
  save := fun d => .ok [d.pages.length]
  now := now
  dirname := "/srv/backend/utils"
  join := fun _ _ c => "/srv/backend/uploads/" ++ c
  writeFile := fun _ _ => .ok ()

/-! ## Theorems -/

/-! ### Rounding -/

theorem roundHalfEven_abs_sub_le (x : ℚ) : |(roundHalfEven x : ℚ) - x| ≤ 1 / 2 := by
  have h1 : (⌊x⌋ : ℚ) ≤ x := Int.floor_le x
  have h2 : x < ⌊x⌋ + 1 := Int.lt_floor_add_one x
  unfold roundHalfEven
  split_ifs with a b c
  · rw [abs_le]; constructor <;> linarith
  · push_cast; rw [abs_le]; constructor <;> linarith
  · have : x - ⌊x⌋ = 1 / 2 := le_antisymm (not_lt.mp b) (not_lt.mp a)
    rw [abs_le]; constructor <;> linarith
  · have : x - ⌊x⌋ = 1 / 2 := le_antisymm (not_lt.mp b) (not_lt.mp a)
    push_cast; rw [abs_le]; constructor <;> linarith

theorem roundHalfEven_eq (x : ℚ) (m : ℤ) (h : |x - m| < 1 / 2) : roundHalfEven x = m := by
  rw [abs_lt] at h
  by_cases hx : (m : ℚ) ≤ x
  · have hf : ⌊x⌋ = m := Int.floor_eq_iff.mpr ⟨hx, by linarith⟩
    unfold roundHalfEven
    rw [hf, if_pos (by linarith)]
  · have hx2 : x < m := not_le.mp hx
    have hf : ⌊x⌋ = m - 1 :=
      Int.floor_eq_iff.mpr ⟨by push_cast; linarith, by push_cast; linarith⟩
    unfold roundHalfEven
    rw [hf, if_neg (by push_cast; linarith), if_pos (by push_cast; linarith)]
    ring

theorem log2_eq (q : ℚ) (k : ℤ) (hlo : (2 : ℚ) ^ k ≤ q) (hhi : q < (2 : ℚ) ^ (k + 1)) :
    Int.log 2 q = k := by
  have hq : 0 < q := lt_of_lt_of_le (by positivity) hlo
  have h1 : k ≤ Int.log 2 q :=
    (Int.zpow_le_iff_le_log (by norm_num) hq).mp (by exact_mod_cast hlo)
  have h2 : Int.log 2 q < k + 1 :=
    (Int.lt_zpow_iff_log_lt (by norm_num) hq).mp (by exact_mod_cast hhi)
  omega

theorem roundDouble_zero : roundDouble 0 = 0 := by
  simp [roundDouble]

theorem roundDouble_eq (q : ℚ) (e m : ℤ) (hlo : (2 : ℚ) ^ (e + 52) ≤ |q|)
    (hhi : |q| < (2 : ℚ) ^ (e + 52 + 1)) (hm : |q / 2 ^ e - m| < 1 / 2) :
    roundDouble q = m * 2 ^ e := by
  have hq : q ≠ 0 := by
    intro h0
    rw [h0, abs_zero] at hlo
    exact absurd hlo (not_le.mpr (by positivity))
  have hl : Int.log 2 |q| - 52 = e := by
    rw [log2_eq |q| (e + 52) hlo hhi]; ring
  unfold roundDouble
  rw [if_neg hq, hl, roundHalfEven_eq _ m hm]

theorem roundDouble_eq_pos (q : ℚ) (e m : ℤ) (hlo : (2 : ℚ) ^ (e + 52) ≤ q)
    (hhi : q < (2 : ℚ) ^ (e + 52 + 1)) (hm : |q / 2 ^ e - m| < 1 / 2) :
    roundDouble q = m * 2 ^ e := by
  have hq : 0 < q := lt_of_lt_of_le (by positivity) hlo
  exact roundDouble_eq q e m (by rwa [abs_of_pos hq]) (by rwa [abs_of_pos hq]) hm

theorem roundDouble_eq_neg (q : ℚ) (e m : ℤ) (hlo : (2 : ℚ) ^ (e + 52) ≤ -q)
    (hhi : -q < (2 : ℚ) ^ (e + 52 + 1)) (hm : |q / 2 ^ e - m| < 1 / 2) :
    roundDouble q = m * 2 ^ e := by
  have hq : q < 0 := by
    have : 0 < -q := lt_of_lt_of_le (by positivity) hlo
    linarith
  exact roundDouble_eq q e m (by rwa [abs_of_neg hq]) (by rwa [abs_of_neg hq]) hm

theorem roundDouble_abs_sub_le (q : ℚ) : |roundDouble q - q| ≤ |q| * 2 ^ (-53 : ℤ) := by
  by_cases hq : q = 0
  · simp [roundDouble, hq]
  · have hpos : 0 < |q| := abs_pos.mpr hq
    have hlog : ((2 : ℕ) : ℚ) ^ Int.log 2 |q| ≤ |q| := Int.zpow_log_le_self (by norm_num) hpos
    set e : ℤ := Int.log 2 |q| - 52 with he
    have hs : (0 : ℚ) < 2 ^ e := by positivity
    have hr := roundHalfEven_abs_sub_le (q / 2 ^ e)
    have h1 : roundDouble q - q = ((roundHalfEven (q / 2 ^ e) : ℚ) - q / 2 ^ e) * 2 ^ e := by
      unfold roundDouble
      rw [if_neg hq]
      field_simp
    rw [h1, abs_mul, abs_of_pos hs]
    have h2 : (2 : ℚ) ^ e = 2 ^ Int.log 2 |q| * 2 ^ (-52 : ℤ) := by
      rw [he, sub_eq_add_neg, zpow_add₀ (by norm_num)]
    have h3 : (2 : ℚ) ^ e ≤ |q| * 2 ^ (-52 : ℤ) := by
      rw [h2]
      exact mul_le_mul_of_nonneg_right (by exact_mod_cast hlog) (by positivity)
    calc |(roundHalfEven (q / 2 ^ e) : ℚ) - q / 2 ^ e| * 2 ^ e ≤ 1 / 2 * 2 ^ e :=
          mul_le_mul_of_nonneg_right hr hs.le
      _ ≤ 1 / 2 * (|q| * 2 ^ (-52 : ℤ)) := mul_le_mul_of_nonneg_left h3 (by norm_num)
      _ = |q| * 2 ^ (-53 : ℤ) := by norm_num; ring

/-- The unit roundoff of binary64. -/
theorem roundDouble_bounds (q : ℚ) (hq : 0 < q) :
    q * (1 - 1 / 2 ^ 53) ≤ roundDouble q ∧ roundDouble q ≤ q * (1 + 1 / 2 ^ 53) := by
  have h := roundDouble_abs_sub_le q
  rw [abs_of_pos hq, abs_le] at h
  have e : (2 : ℚ) ^ (-53 : ℤ) = 1 / 2 ^ 53 := by norm_num
  rw [e] at h
  constructor <;> nlinarith [h.1, h.2]

theorem roundDouble_pos (q : ℚ) (hq : 0 < q) : 0 < roundDouble q := by
  have h := (roundDouble_bounds q hq).1
  have : 0 < q * (1 - 1 / 2 ^ 53) := mul_pos hq (by norm_num)
  linarith

theorem roundDouble_abs_le (q : ℚ) : |roundDouble q| ≤ 2 * |q| := by
  have h := roundDouble_abs_sub_le q
  have e : (2 : ℚ) ^ (-53 : ℤ) = 1 / 2 ^ 53 := by norm_num
  rw [e] at h
  have h2 : |roundDouble q| ≤ |roundDouble q - q| + |q| := by
    have := abs_add (roundDouble q - q) q
    simpa using this
  have h3 : |q| * (1 / 2 ^ 53) ≤ |q| := by
    have : (0 : ℚ) ≤ |q| := abs_nonneg q
    nlinarith
  linarith

/-! ### Layout -/

theorem computeLayout_small (A : Arithmetic) (width height : ℚ)
    (h : ¬ (width > maxWidth ∨ height > maxHeight)) :
    computeLayout A width height =
      { pageWidth := width, pageHeight := height, imgWidth := width, imgHeight := height
        x := A.round (A.round (width - width) / 2)
        y := A.round (A.round (height - height) / 2) } := by
  simp [computeLayout, h]

theorem computeLayout_large (A : Arithmetic) (width height : ℚ)
    (h : width > maxWidth ∨ height > maxHeight) :
    computeLayout A width height =
      { pageWidth := maxWidth, pageHeight := maxHeight
        imgWidth := A.round (width * scale A width height)
        imgHeight := A.round (height * scale A width height)
        x := A.round (A.round (maxWidth - A.round (width * scale A width height)) / 2)
        y := A.round (A.round (maxHeight - A.round (height * scale A width height)) / 2) } := by
  simp [computeLayout, h]

theorem scale_of_pos (A : Arithmetic) (width height : ℚ) (hw : 0 < width) (hh : 0 < height) :
    scale A width height = min (A.round (maxWidth / width)) (A.round (maxHeight / height)) := by
  simp [scale, hw.ne', hh.ne']

/-! ### The layout of three images in binary64 -/

theorem layout_1284_2778 :
    computeLayout binary64 1284 2778 =
      { pageWidth := 595, pageHeight := 842
        imgWidth := (6846438053933543 / 2 ^ 44)
        imgHeight := (7406310324699137 / 2 ^ 43)
        x := (3620912642493977 / 2 ^ 45)
        y := (-1 / 2 ^ 44) } := by
  have hwr : roundDouble (595 / 1284) = (8347793701823817 / 2 ^ 54) := by
    rw [roundDouble_eq_pos _ (-54) (8347793701823817) (by norm_num) (by norm_num) (by norm_num [abs_lt])]
    norm_num
  have hhr : roundDouble (842 / 2778) = (5460087669180645 / 2 ^ 54) := by
    rw [roundDouble_eq_pos _ (-54) (5460087669180645) (by norm_num) (by norm_num) (by norm_num [abs_lt])]
    norm_num
  have hs : scale binary64 1284 2778 = (5460087669180645 / 2 ^ 54) := by
    rw [scale_of_pos _ _ _ (by norm_num) (by norm_num)]
    simp only [binary64, maxWidth, maxHeight]
    rw [hwr, hhr]
    exact min_eq_right (by norm_num)
  have hiw : roundDouble (1284 * (5460087669180645 / 2 ^ 54)) = (6846438053933543 / 2 ^ 44) := by
    rw [roundDouble_eq_pos _ (-44) (6846438053933543) (by norm_num) (by norm_num) (by norm_num [abs_lt])]
    norm_num
  have hih : roundDouble (2778 * (5460087669180645 / 2 ^ 54)) = (7406310324699137 / 2 ^ 43) := by
    rw [roundDouble_eq_pos _ (-43) (7406310324699137) (by norm_num) (by norm_num) (by norm_num [abs_lt])]
    norm_num
  have hdx : roundDouble (595 - (6846438053933543 / 2 ^ 44)) = (3620912642493977 / 2 ^ 44) := by
    rw [roundDouble_eq_pos _ (-45) (7241825284987954) (by norm_num) (by norm_num) (by norm_num [abs_lt])]
    norm_num
  have hx : roundDouble ((3620912642493977 / 2 ^ 44) / 2) = (3620912642493977 / 2 ^ 45) := by
    rw [roundDouble_eq_pos _ (-46) (7241825284987954) (by norm_num) (by norm_num) (by norm_num [abs_lt])]
    norm_num
  have hdy : roundDouble (842 - (7406310324699137 / 2 ^ 43)) = (-1 / 2 ^ 43) := by
    rw [roundDouble_eq_neg _ (-95) (-4503599627370496) (by norm_num) (by norm_num) (by norm_num [abs_lt])]
    norm_num
  have hy : roundDouble ((-1 / 2 ^ 43) / 2) = (-1 / 2 ^ 44) := by
    rw [roundDouble_eq_neg _ (-96) (-4503599627370496) (by norm_num) (by norm_num) (by norm_num [abs_lt])]
    norm_num
  rw [computeLayout_large _ _ _ (by norm_num [maxWidth, maxHeight]), hs]
  simp only [binary64, maxWidth, maxHeight]
  rw [hiw, hih, hdx, hx, hdy, hy]

theorem layout_1242_2208 :
    computeLayout binary64 1242 2208 =
      { pageWidth := 595, pageHeight := 842
        imgWidth := (8332099115286527 / 2 ^ 44)
        imgHeight := (7406310324699135 / 2 ^ 43)
        x := (2135251581140993 / 2 ^ 45)
        y := (1 / 2 ^ 44) } := by
  have hwr : roundDouble (595 / 1242) = (4315043121232601 / 2 ^ 53) := by
    rw [roundDouble_eq_pos _ (-54) (8630086242465202) (by norm_num) (by norm_num) (by norm_num [abs_lt])]
    norm_num
  have hhr : roundDouble (842 / 2208) = (3434810585367715 / 2 ^ 53) := by
    rw [roundDouble_eq_pos _ (-54) (6869621170735430) (by norm_num) (by norm_num) (by norm_num [abs_lt])]
    norm_num
  have hs : scale binary64 1242 2208 = (3434810585367715 / 2 ^ 53) := by
    rw [scale_of_pos _ _ _ (by norm_num) (by norm_num)]
    simp only [binary64, maxWidth, maxHeight]
    rw [hwr, hhr]
    exact min_eq_right (by norm_num)
  have hiw : roundDouble (1242 * (3434810585367715 / 2 ^ 53)) = (8332099115286527 / 2 ^ 44) := by
    rw [roundDouble_eq_pos _ (-44) (8332099115286527) (by norm_num) (by norm_num) (by norm_num [abs_lt])]
    norm_num
  have hih : roundDouble (2208 * (3434810585367715 / 2 ^ 53)) = (7406310324699135 / 2 ^ 43) := by
    rw [roundDouble_eq_pos _ (-43) (7406310324699135) (by norm_num) (by norm_num) (by norm_num [abs_lt])]
    norm_num
  have hdx : roundDouble (595 - (8332099115286527 / 2 ^ 44)) = (2135251581140993 / 2 ^ 44) := by
    rw [roundDouble_eq_pos _ (-46) (8541006324563972) (by norm_num) (by norm_num) (by norm_num [abs_lt])]
    norm_num
  have hx : roundDouble ((2135251581140993 / 2 ^ 44) / 2) = (2135251581140993 / 2 ^ 45) := by
    rw [roundDouble_eq_pos _ (-47) (8541006324563972) (by norm_num) (by norm_num) (by norm_num [abs_lt])]
    norm_num
  have hdy : roundDouble (842 - (7406310324699135 / 2 ^ 43)) = (1 / 2 ^ 43) := by
    rw [roundDouble_eq_pos _ (-95) (4503599627370496) (by norm_num) (by norm_num) (by norm_num [abs_lt])]
    norm_num
  have hy : roundDouble ((1 / 2 ^ 43) / 2) = (1 / 2 ^ 44) := by
    rw [roundDouble_eq_pos _ (-96) (4503599627370496) (by norm_num) (by norm_num) (by norm_num [abs_lt])]
    norm_num
  rw [computeLayout_large _ _ _ (by norm_num [maxWidth, maxHeight]), hs]
  simp only [binary64, maxWidth, maxHeight]
  rw [hiw, hih, hdx, hx, hdy, hy]

theorem layout_1000_2000 :
    computeLayout binary64 1000 2000 =
      { pageWidth := 595, pageHeight := 842
        imgWidth := 421
        imgHeight := 842
        x := 87
        y := 0 } := by
  have hwr : roundDouble (595 / 1000) = (2679641778285445 / 2 ^ 52) := by
    rw [roundDouble_eq_pos _ (-53) (5359283556570890) (by norm_num) (by norm_num) (by norm_num [abs_lt])]
    norm_num
  have hhr : roundDouble (842 / 2000) = (7584061772491915 / 2 ^ 54) := by
    rw [roundDouble_eq_pos _ (-54) (7584061772491915) (by norm_num) (by norm_num) (by norm_num [abs_lt])]
    norm_num
  have hs : scale binary64 1000 2000 = (7584061772491915 / 2 ^ 54) := by
    rw [scale_of_pos _ _ _ (by norm_num) (by norm_num)]
    simp only [binary64, maxWidth, maxHeight]
    rw [hwr, hhr]
    exact min_eq_right (by norm_num)
  have hiw : roundDouble (1000 * (7584061772491915 / 2 ^ 54)) = 421 := by
    rw [roundDouble_eq_pos _ (-44) (7406310324699136) (by norm_num) (by norm_num) (by norm_num [abs_lt])]
    norm_num
  have hih : roundDouble (2000 * (7584061772491915 / 2 ^ 54)) = 842 := by
    rw [roundDouble_eq_pos _ (-43) (7406310324699136) (by norm_num) (by norm_num) (by norm_num [abs_lt])]
    norm_num
  have hdx : roundDouble (595 - 421) = 174 := by
    rw [roundDouble_eq_pos _ (-45) (6122080743456768) (by norm_num) (by norm_num) (by norm_num [abs_lt])]
    norm_num
  have hx : roundDouble (174 / 2) = 87 := by
    rw [roundDouble_eq_pos _ (-46) (6122080743456768) (by norm_num) (by norm_num) (by norm_num [abs_lt])]
    norm_num
  have hdy : roundDouble (842 - 842) = 0 := by
    rw [show (842 - 842 : ℚ) = 0 by norm_num]; exact roundDouble_zero
  have hy : roundDouble (0 / 2) = 0 := by
    rw [show (0 / 2 : ℚ) = 0 by norm_num]; exact roundDouble_zero
  rw [computeLayout_large _ _ _ (by norm_num [maxWidth, maxHeight]), hs]
  simp only [binary64, maxWidth, maxHeight]
  rw [hiw, hih, hdx, hx, hdy, hy]

/-! ### Rounding errors of the scaled layout -/

theorem scale_pos (width height : ℚ) (hw : 0 < width) (hh : 0 < height) :
    0 < scale binary64 width height := by
  rw [scale_of_pos _ _ _ hw hh]
  exact lt_min (roundDouble_pos _ (div_pos (by norm_num [maxWidth]) hw))
    (roundDouble_pos _ (div_pos (by norm_num [maxHeight]) hh))

theorem scaled_near_cap (cap side : ℚ) (hc : 0 < cap) (hs : 0 < side) :
    |roundDouble (side * roundDouble (cap / side)) - cap| ≤ cap / 2 ^ 51 := by
  have h1 := roundDouble_bounds (cap / side) (div_pos hc hs)
  have hr := roundDouble_pos (cap / side) (div_pos hc hs)
  have h2 := roundDouble_bounds (side * roundDouble (cap / side)) (mul_pos hs hr)
  have e : side * (cap / side) = cap := by field_simp
  have h3 : cap * (1 - 1 / 2 ^ 53) ≤ side * roundDouble (cap / side) := by
    have := mul_le_mul_of_nonneg_left h1.1 hs.le
    rw [← mul_assoc, e] at this
    exact this
  have h4 : side * roundDouble (cap / side) ≤ cap * (1 + 1 / 2 ^ 53) := by
    have := mul_le_mul_of_nonneg_left h1.2 hs.le
    rw [← mul_assoc, e] at this
    exact this
  rw [abs_le]
  constructor
  · nlinarith [h2.1, h3]
  · nlinarith [h2.2, h4]

theorem offset_small (cap v bound : ℚ) (h : |v - cap| ≤ bound) :
    |roundDouble (roundDouble (cap - v) / 2)| ≤ 2 * bound := by
  have h1 := roundDouble_abs_le (cap - v)
  have h2 := roundDouble_abs_le (roundDouble (cap - v) / 2)
  have h3 : |roundDouble (cap - v) / 2| = |roundDouble (cap - v)| / 2 := by
    rw [abs_div]; norm_num
  have h4 : |cap - v| = |v - cap| := abs_sub_comm _ _
  rw [h3] at h2
  rw [h4] at h1
  linarith

/-! ### Executions -/

theorem bind_result_ok {α β : Type} (r : Run α) (f : α → Run β) (a : α) (h : r.result = .ok a) :
    (r >>= f).result = (f a).result ∧ (r >>= f).effects = r.effects ++ (f a).effects := by
  show (Run.bind r f).result = _ ∧ (Run.bind r f).effects = _
  simp [Run.bind, h]

theorem bind_result_error {α β : Type} (r : Run α) (f : α → Run β) (m : Thrown)
    (h : r.result = .error m) :
    (r >>= f).result = .error m ∧ (r >>= f).effects = r.effects := by
  show (Run.bind r f).result = _ ∧ (Run.bind r f).effects = _
  simp [Run.bind, h]

theorem modifyPage_length_append (f : PDFPage → PDFPage) (l : List PDFPage) (p : PDFPage) :
    modifyPage f l.length (l ++ [p]) = l ++ [f p] := by
  induction l with
  | nil => rfl
  | cons q l ih => simp [modifyPage, ih]

theorem drawOnNewPage_pages (pdfDoc : PDFDocument) (image : PDFImage) :
    (drawOnNewPage pdfDoc image).pages = pdfDoc.pages ++ [pageFor image] := by
  simp [drawOnNewPage, PDFDocument.addPage, PDFDocument.drawImage, modifyPage_length_append,
    pageFor]

theorem foldl_drawOnNewPage_pages (images : List PDFImage) (pdfDoc : PDFDocument) :
    (images.foldl drawOnNewPage pdfDoc).pages = pdfDoc.pages ++ images.map pageFor := by
  induction images generalizing pdfDoc with
  | nil => simp
  | cons image images ih => simp [ih, drawOnNewPage_pages]

theorem loadImage_of_decodes (env : Env) (imagePath : String) (image : PDFImage)
    (h : Decodes env imagePath image) : (loadImage env imagePath).result = .ok image := by
  obtain ⟨imageBytes, hr, hd⟩ := h
  have hb := bind_result_ok (Run.call (.readFile imagePath) (env.readFile imagePath))
    (fun imageBytes => embedImage env imagePath imageBytes) imageBytes (by simp [Run.call, hr])
  show (Run.call (.readFile imagePath) (env.readFile imagePath) >>=
    fun imageBytes => embedImage env imagePath imageBytes).result = _
  rw [hb.1]
  rcases hd with ⟨he, hd⟩ | ⟨he, hd⟩
  · simp [embedImage, he, Run.call, hd]
  · by_cases hp : toLowerCase (extname imagePath) = ".png"
    · rw [hp] at he
      exact absurd he (by decide)
    · simp [embedImage, hp, he, Run.call, hd]

theorem processImages_ok (env : Env) (imagePaths : List String) (images : List PDFImage)
    (h : List.Forall₂ (fun p image => (loadImage env p).result = .ok image) imagePaths images)
    (pdfDoc : PDFDocument) :
    (processImages env pdfDoc imagePaths).result = .ok (images.foldl drawOnNewPage pdfDoc) := by
  induction h generalizing pdfDoc with
  | nil => rfl
  | @cons p image ps imgs hp _ ih =>
    have hb := bind_result_ok (loadImage env p)
      (fun image => processImages env (drawOnNewPage pdfDoc image) ps) image hp
    show (loadImage env p >>= fun image => processImages env (drawOnNewPage pdfDoc image) ps).result
      = _
    rw [hb.1]
    exact ih _

theorem processImages_error (env : Env) (pre : List String) (imagePath : String)
    (post : List String) (message : Thrown)
    (hpre : ∀ p ∈ pre, ∃ image, (loadImage env p).result = .ok image)
    (hfail : (loadImage env imagePath).result = .error message) (pdfDoc : PDFDocument) :
    (processImages env pdfDoc (pre ++ imagePath :: post)).result = .error message := by
  induction pre generalizing pdfDoc with
  | nil =>
    exact (bind_result_error (loadImage env imagePath)
      (fun image => processImages env (drawOnNewPage pdfDoc image) post) message hfail).1
  | cons p pre ih =>
    obtain ⟨image, hp⟩ := hpre p (List.mem_cons_self _ _)
    have hb := bind_result_ok (loadImage env p)
      (fun image => processImages env (drawOnNewPage pdfDoc image) (pre ++ imagePath :: post))
      image hp
    show (loadImage env p >>= fun image =>
      processImages env (drawOnNewPage pdfDoc image) (pre ++ imagePath :: post)).result = _
    rw [hb.1]
    exact ih (fun q hq => hpre q (List.mem_cons_of_mem _ hq)) _

theorem embedImage_no_write (env : Env) (imagePath : String) (imageBytes : Bytes) :
    ∀ e ∈ (embedImage env imagePath imageBytes).effects, e.isWriteFile = false := by
  unfold embedImage
  simp only
  split_ifs <;> simp [Run.call, Run.throw, Effect.isWriteFile]

theorem loadImage_no_write (env : Env) (imagePath : String) :
    ∀ e ∈ (loadImage env imagePath).effects, e.isWriteFile = false := by
  show ∀ e ∈ (Run.bind (Run.call (.readFile imagePath) (env.readFile imagePath))
    (fun imageBytes => embedImage env imagePath imageBytes)).effects, e.isWriteFile = false
  unfold Run.bind
  cases hr : env.readFile imagePath with
  | error m => simp [Run.call, hr, Effect.isWriteFile]
  | ok imageBytes =>
    have := embedImage_no_write env imagePath imageBytes
    simp only [Run.call, hr, List.mem_append, List.mem_singleton]
    rintro e (rfl | he)
    · rfl
    · exact this e he

theorem processImages_no_write (env : Env) (imagePaths : List String) (pdfDoc : PDFDocument) :
    ∀ e ∈ (processImages env pdfDoc imagePaths).effects, e.isWriteFile = false := by
  induction imagePaths generalizing pdfDoc with
  | nil => intro e he; simp [processImages, pure, Run.pure] at he
  | cons p ps ih =>
    show ∀ e ∈ (Run.bind (loadImage env p)
      (fun image => processImages env (drawOnNewPage pdfDoc image) ps)).effects,
      e.isWriteFile = false
    have hl := loadImage_no_write env p
    unfold Run.bind
    cases hr : (loadImage env p).result with
    | error m => simpa using hl
    | ok image =>
      simp only [List.mem_append]
      rintro e (he | he)
      · exact hl e he
      · exact ih _ e he

/-! ### The body of the `try` and the whole function -/

theorem generateBody_load_error (env : Env) (imagePaths : List String) (message : Thrown)
    (h : (processImages env PDFDocument.create imagePaths).result = .error message) :
    (generateBody env imagePaths).result = .error message ∧
    (generateBody env imagePaths).effects =
      .createDocument :: (processImages env PDFDocument.create imagePaths).effects := by
  unfold generateBody
  have h1 := bind_result_ok (Run.call .createDocument (.ok PDFDocument.create))
    (fun pdfDoc => processImages env pdfDoc imagePaths >>= fun pdfDoc =>
      Run.call (.save pdfDoc) (env.save pdfDoc) >>= fun pdfBytes =>
      Run.call (.writeFile (outputPath env) pdfBytes) (env.writeFile (outputPath env) pdfBytes)
        >>= fun _ => pure (outputPath env)) PDFDocument.create rfl
  have h2 := bind_result_error (processImages env PDFDocument.create imagePaths)
    (fun pdfDoc =>
      Run.call (.save pdfDoc) (env.save pdfDoc) >>= fun pdfBytes =>
      Run.call (.writeFile (outputPath env) pdfBytes) (env.writeFile (outputPath env) pdfBytes)
        >>= fun _ => pure (outputPath env)) message h
  exact ⟨h1.1.trans h2.1, by rw [h1.2, h2.2]; rfl⟩

theorem generateBody_save_error (env : Env) (imagePaths : List String) (pdfDoc : PDFDocument)
    (message : Thrown)
    (h : (processImages env PDFDocument.create imagePaths).result = .ok pdfDoc)
    (hs : env.save pdfDoc = .error message) :
    (generateBody env imagePaths).result = .error message ∧
    (generateBody env imagePaths).effects =
      .createDocument :: (processImages env PDFDocument.create imagePaths).effects ++
        [.save pdfDoc] := by
  unfold generateBody
  have h1 := bind_result_ok (Run.call .createDocument (.ok PDFDocument.create))
    (fun pdfDoc => processImages env pdfDoc imagePaths >>= fun pdfDoc =>
      Run.call (.save pdfDoc) (env.save pdfDoc) >>= fun pdfBytes =>
      Run.call (.writeFile (outputPath env) pdfBytes) (env.writeFile (outputPath env) pdfBytes)
        >>= fun _ => pure (outputPath env)) PDFDocument.create rfl
  have h2 := bind_result_ok (processImages env PDFDocument.create imagePaths)
    (fun pdfDoc =>
      Run.call (.save pdfDoc) (env.save pdfDoc) >>= fun pdfBytes =>
      Run.call (.writeFile (outputPath env) pdfBytes) (env.writeFile (outputPath env) pdfBytes)
        >>= fun _ => pure (outputPath env)) pdfDoc h
  have h3 := bind_result_error (Run.call (.save pdfDoc) (env.save pdfDoc))
    (fun pdfBytes =>
      Run.call (.writeFile (outputPath env) pdfBytes) (env.writeFile (outputPath env) pdfBytes)
        >>= fun _ => pure (outputPath env)) message (by simp [Run.call, hs])
  exact ⟨h1.1.trans (h2.1.trans h3.1), by rw [h1.2, h2.2, h3.2]; simp [Run.call]⟩

theorem generateBody_saved (env : Env) (imagePaths : List String) (pdfDoc : PDFDocument)
    (pdfBytes : Bytes)
    (h : (processImages env PDFDocument.create imagePaths).result = .ok pdfDoc)
    (hs : env.save pdfDoc = .ok pdfBytes) :
    (generateBody env imagePaths).result =
      (env.writeFile (outputPath env) pdfBytes).map (fun _ => outputPath env) ∧
    (generateBody env imagePaths).effects =
      .createDocument :: (processImages env PDFDocument.create imagePaths).effects ++
        [.save pdfDoc, .writeFile (outputPath env) pdfBytes] := by
  unfold generateBody
  have h1 := bind_result_ok (Run.call .createDocument (.ok PDFDocument.create))
    (fun pdfDoc => processImages env pdfDoc imagePaths >>= fun pdfDoc =>
      Run.call (.save pdfDoc) (env.save pdfDoc) >>= fun pdfBytes =>
      Run.call (.writeFile (outputPath env) pdfBytes) (env.writeFile (outputPath env) pdfBytes)
        >>= fun _ => pure (outputPath env)) PDFDocument.create rfl
  have h2 := bind_result_ok (processImages env PDFDocument.create imagePaths)
    (fun pdfDoc =>
      Run.call (.save pdfDoc) (env.save pdfDoc) >>= fun pdfBytes =>
      Run.call (.writeFile (outputPath env) pdfBytes) (env.writeFile (outputPath env) pdfBytes)
        >>= fun _ => pure (outputPath env)) pdfDoc h
  have h3 := bind_result_ok (Run.call (.save pdfDoc) (env.save pdfDoc))
    (fun pdfBytes =>
      Run.call (.writeFile (outputPath env) pdfBytes) (env.writeFile (outputPath env) pdfBytes)
        >>= fun _ => pure (outputPath env)) pdfBytes (by simp [Run.call, hs])
  refine ⟨h1.1.trans (h2.1.trans (h3.1.trans ?_)), ?_⟩
  · show (Run.bind _ _).result = _
    unfold Run.bind
    cases hw : env.writeFile (outputPath env) pdfBytes <;>
      simp [Run.call, hw, Except.map, pure, Run.pure]
  · rw [h1.2, h2.2, h3.2]
    show _ ++ (_ ++ (_ ++ (Run.bind _ _).effects)) = _
    unfold Run.bind
    cases hw : env.writeFile (outputPath env) pdfBytes <;>
      simp [Run.call, hw, pure, Run.pure]

theorem generate_nonempty (env : Env) (imagePaths : List String) (hne : imagePaths ≠ []) :
    generatePdfFromImages env (some imagePaths) =
      Run.tryCatch (generateBody env imagePaths) catchBlock := by
  have : imagePaths.length ≠ 0 := by simpa using hne
  simp [generatePdfFromImages, this]

theorem catchBlock_spec (cause : Thrown) :
    (catchBlock cause).result = .error (rethrown cause) ∧
    (catchBlock cause).effects = [.consoleError cause] := by
  have h : catchBlock cause =
      Run.bind (Run.call (.consoleError cause) (.ok ())) (fun _ =>
        Run.bind (Run.eval cause.message) (fun message =>
          Run.throw (.error ("Failed to generate PDF: " ++ templateValue message)))) := rfl
  rw [h]
  cases cause <;> simp [Run.bind, Run.call, Run.eval, Run.throw, Thrown.message, rethrown]

theorem rethrown_error (message : String) :
    rethrown (.error message) = .error ("Failed to generate PDF: " ++ message) := rfl

theorem generate_of_body_error (env : Env) (imagePaths : List String) (hne : imagePaths ≠ [])
    (cause : Thrown) (h : (generateBody env imagePaths).result = .error cause) :
    (generatePdfFromImages env (some imagePaths)).result = .error (rethrown cause) ∧
    (generatePdfFromImages env (some imagePaths)).effects =
      (generateBody env imagePaths).effects ++ [.consoleError cause] := by
  rw [generate_nonempty env imagePaths hne]
  unfold Run.tryCatch
  simp only [h]
  exact ⟨(catchBlock_spec cause).1, by rw [(catchBlock_spec cause).2]⟩

theorem generate_of_body_ok (env : Env) (imagePaths : List String) (hne : imagePaths ≠ [])
    (out : String) (h : (generateBody env imagePaths).result = .ok out) :
    (generatePdfFromImages env (some imagePaths)).result = .ok out ∧
    (generatePdfFromImages env (some imagePaths)).effects = (generateBody env imagePaths).effects := by
  rw [generate_nonempty env imagePaths hne]
  unfold Run.tryCatch
  simp [h]

theorem generate_result_ok (env : Env) (imagePaths : Option (List String)) (out : String)
    (h : (generatePdfFromImages env imagePaths).result = .ok out) : out = outputPath env := by
  unfold generatePdfFromImages at h
  split_ifs at h with hc
  · simp [Run.throw] at h
  · unfold Run.tryCatch at h
    cases hb : (generateBody env (imagePaths.getD [])).result with
    | error m =>
      simp only [hb] at h
      rw [(catchBlock_spec m).1] at h
      cases h
    | ok out2 =>
      simp only [hb] at h
      cases hp : (processImages env PDFDocument.create (imagePaths.getD [])).result with
      | error m =>
        rw [(generateBody_load_error env _ m hp).1] at hb
        cases hb
      | ok pdfDoc =>
        cases hs : env.save pdfDoc with
        | error m =>
          rw [(generateBody_save_error env _ pdfDoc m hp hs).1] at hb
          cases hb
        | ok pdfBytes =>
          rw [(generateBody_saved env _ pdfDoc pdfBytes hp hs).1] at hb
          cases hw : env.writeFile (outputPath env) pdfBytes with
          | error m => rw [hw] at hb; cases hb
          | ok u =>
            rw [hw] at hb
            simp only [Except.map, Except.ok.injEq] at hb h
            rw [← h, ← hb]

/-! ### Decimal numerals -/

theorem digitValue_digitChar (k : Nat) (h : k < 10) : digitValue (Nat.digitChar k) = k := by
  interval_cases k <;> rfl

theorem decimalValue_toDigitsCore (fuel : Nat) :
    ∀ (n : Nat) (ds : List Char), n < fuel →
      decimalValue 0 (Nat.toDigitsCore 10 fuel n ds) = decimalValue n ds := by
  induction fuel with
  | zero => intro n ds h; exact absurd h (Nat.not_lt_zero _)
  | succ fuel ih =>
    intro n ds h
    have hd : digitValue (Nat.digitChar (n % 10)) = n % 10 :=
      digitValue_digitChar _ (Nat.mod_lt _ (by norm_num))
    simp only [Nat.toDigitsCore]
    split_ifs with h0
    · have hn : n % 10 = n := Nat.mod_eq_of_lt (by omega)
      rw [hn] at hd
      simp only [decimalValue, List.foldl_cons, Nat.zero_mul, Nat.zero_add, hn, hd]
    · rw [ih (n / 10) _ (by omega)]
      have : n / 10 * 10 + n % 10 = n := by omega
      simp [decimalValue, hd, this]

theorem repr_injective (a b : Nat) (h : Nat.repr a = Nat.repr b) : a = b := by
  have h2 : Nat.toDigits 10 a = Nat.toDigits 10 b := by
    have := congrArg String.data h
    simpa [Nat.repr, List.asString] using this
  have ha := decimalValue_toDigitsCore (a + 1) a [] (Nat.lt_succ_self a)
  have hb := decimalValue_toDigitsCore (b + 1) b [] (Nat.lt_succ_self b)
  simp only [decimalValue, List.foldl_nil] at ha hb
  rw [← ha, ← hb]
  show decimalValue 0 (Nat.toDigits 10 a) = decimalValue 0 (Nat.toDigits 10 b)
  rw [h2]

theorem fileName_injective (a b : Nat) (h : fileName a = fileName b) : a = b := by
  apply repr_injective
  unfold fileName at h
  have := congrArg String.data h
  simp only [String.data_append, List.append_cancel_right_eq, List.append_cancel_left_eq] at this
  exact String.ext this

theorem save_mem_effects (env : Env) (imagePaths : List String) (hne : imagePaths ≠ [])
    (pdfDoc : PDFDocument)
    (h : (processImages env PDFDocument.create imagePaths).result = .ok pdfDoc) :
    Effect.save pdfDoc ∈ (generatePdfFromImages env (some imagePaths)).effects := by
  cases hs : env.save pdfDoc with
  | error m =>
    have hb := generateBody_save_error env imagePaths pdfDoc m h hs
    rw [(generate_of_body_error env imagePaths hne m hb.1).2, hb.2]
    simp
  | ok pdfBytes =>
    have hb := generateBody_saved env imagePaths pdfDoc pdfBytes h hs
    cases hw : env.writeFile (outputPath env) pdfBytes with
    | error m =>
      have hr : (generateBody env imagePaths).result = .error m := by
        rw [hb.1, hw]; rfl
      rw [(generate_of_body_error env imagePaths hne m hr).2, hb.2]
      simp
    | ok u =>
      have hr : (generateBody env imagePaths).result = .ok (outputPath env) := by
        rw [hb.1, hw]; rfl
      rw [(generate_of_body_ok env imagePaths hne _ hr).2, hb.2]
      simp

theorem no_write_of_load_error (env : Env) (imagePaths : List String) (hne : imagePaths ≠ [])
    (message : Thrown)
    (h : (processImages env PDFDocument.create imagePaths).result = .error message) :
    (generatePdfFromImages env (some imagePaths)).result =
      .error (rethrown message) ∧
    ∀ e ∈ (generatePdfFromImages env (some imagePaths)).effects, e.isWriteFile = false := by
  have hb := generateBody_load_error env imagePaths message h
  have hg := generate_of_body_error env imagePaths hne message hb.1
  refine ⟨hg.1, ?_⟩
  rw [hg.2, hb.2]
  intro e he
  simp only [List.cons_append, List.mem_cons, List.mem_append, List.mem_singleton,
    List.not_mem_nil, or_false] at he
  rcases he with rfl | he | rfl
  · rfl
  · exact processImages_no_write env _ _ e he
  · rfl

theorem no_write_of_save_error (env : Env) (imagePaths : List String) (hne : imagePaths ≠ [])
    (pdfDoc : PDFDocument) (message : Thrown)
    (h : (processImages env PDFDocument.create imagePaths).result = .ok pdfDoc)
    (hs : env.save pdfDoc = .error message) :
    (generatePdfFromImages env (some imagePaths)).result =
      .error (rethrown message) ∧
    ∀ e ∈ (generatePdfFromImages env (some imagePaths)).effects, e.isWriteFile = false := by
  have hb := generateBody_save_error env imagePaths pdfDoc message h hs
  have hg := generate_of_body_error env imagePaths hne message hb.1
  refine ⟨hg.1, ?_⟩
  rw [hg.2, hb.2]
  intro e he
  simp only [List.cons_append, List.mem_cons, List.mem_append, List.mem_singleton,
    List.not_mem_nil, or_false] at he
  rcases he with rfl | (he | rfl) | rfl
  · rfl
  · exact processImages_no_write env _ _ e he
  · rfl
  · rfl

theorem generate_empty (env : Env) :
    generatePdfFromImages env (some []) =
      Run.throw (.error "No images provided for PDF generation") ∧
    generatePdfFromImages env none =
      Run.throw (.error "No images provided for PDF generation") := by
  simp [generatePdfFromImages]

theorem loadImage_of_read (env : Env) (imagePath : String) (imageBytes : Bytes)
    (h : env.readFile imagePath = .ok imageBytes) :
    (loadImage env imagePath).result = (embedImage env imagePath imageBytes).result :=
  (bind_result_ok (Run.call (.readFile imagePath) (env.readFile imagePath))
    (fun imageBytes => embedImage env imagePath imageBytes) imageBytes
    (by simp [Run.call, h])).1

theorem generate_success (env : Env) (imagePaths : List String) (images : List PDFImage)
    (hne : imagePaths ≠ []) (hdec : List.Forall₂ (Decodes env) imagePaths images)
    (pdfBytes : Bytes) (hs : env.save (images.foldl drawOnNewPage PDFDocument.create) = .ok pdfBytes)
    (hw : env.writeFile (outputPath env) pdfBytes = .ok ()) :
    (generatePdfFromImages env (some imagePaths)).result = .ok (outputPath env) := by
  have hp := processImages_ok env imagePaths images
    (hdec.imp (fun p image h => loadImage_of_decodes env p image h)) PDFDocument.create
  have hb := generateBody_saved env imagePaths _ pdfBytes hp hs
  have hr : (generateBody env imagePaths).result = .ok (outputPath env) := by
    rw [hb.1, hw]; rfl
  exact (generate_of_body_ok env imagePaths hne _ hr).1

theorem sample_decodes_png (now : Nat) :
    Decodes (sampleEnv now) "a.png" { width := 300, height := 300, pixels := [7] } :=
  ⟨[300, 300, 7], by simp [sampleEnv], Or.inl ⟨by decide, by simp [sampleEnv]⟩⟩

theorem sample_decodes_jpg (now : Nat) :
    Decodes (sampleEnv now) "B.JPG" { width := 1000, height := 2000, pixels := [9] } :=
  ⟨[1000, 2000, 9], by simp [sampleEnv], Or.inr ⟨Or.inl (by decide), by simp [sampleEnv]⟩⟩

theorem sample_webp_fails (now : Nat) :
    (loadImage (sampleEnv now) "c.webp").result = .error (.error
      "WebP format requires additional processing. Please convert to JPG or PNG first.") := by
  rw [loadImage_of_read (sampleEnv now) "c.webp" [10, 10] (by simp [sampleEnv])]
  have h1 : toLowerCase (extname "c.webp") = ".webp" := by decide
  unfold embedImage
  simp only [h1]
  rfl

theorem body_error_cases (env : Env) (imagePaths : List String) (cause : Thrown)
    (h : (generateBody env imagePaths).result = .error cause) :
    (processImages env PDFDocument.create imagePaths).result = .error cause ∨
    ∃ pdfDoc, (processImages env PDFDocument.create imagePaths).result = .ok pdfDoc ∧
      (env.save pdfDoc = .error cause ∨
        ∃ pdfBytes, env.save pdfDoc = .ok pdfBytes ∧
          env.writeFile (outputPath env) pdfBytes = .error cause) := by
  cases hp : (processImages env PDFDocument.create imagePaths).result with
  | error m =>
    rw [(generateBody_load_error env _ m hp).1] at h
    left; cases h; rfl
  | ok pdfDoc =>
    right
    refine ⟨pdfDoc, rfl, ?_⟩
    cases hs : env.save pdfDoc with
    | error m =>
      rw [(generateBody_save_error env _ pdfDoc m hp hs).1] at h
      left; cases h; rfl
    | ok pdfBytes =>
      right
      refine ⟨pdfBytes, rfl, ?_⟩
      rw [(generateBody_saved env _ pdfDoc pdfBytes hp hs).1] at h
      cases hw : env.writeFile (outputPath env) pdfBytes with
      | error m => rw [hw] at h; cases h; rfl
      | ok u => rw [hw] at h; cases h

/-! ### The claims on the layout -/

/-- C1: for positive pixel dimensions the layout computed on lines 53-78 is
the one the specification defines (no scaling and a page of the image's size
within both caps, otherwise an A4 page and the image scaled by
`min(595/width, 842/height)`), in any arithmetic; `(300,300)` gives a page of
`(300,300)`, and `(1000,2000)` gives scale `0.421`, placed size `(421, 842)`,
page `(595, 842)`, `offsetX = 87`, `offsetY = 0` in exact arithmetic, the
layouts being the same in binary64. -/
theorem computeLayout_eq_specLayout :
    (∀ (A : Arithmetic) (width height : ℚ), 0 < width → 0 < height →
      computeLayout A width height = specLayout A width height) ∧
    computeLayout exact 300 300 =
      { pageWidth := 300, pageHeight := 300, imgWidth := 300, imgHeight := 300, x := 0, y := 0 } ∧
    scale exact 1000 2000 = 421 / 1000 ∧
    computeLayout exact 1000 2000 =
      { pageWidth := 595, pageHeight := 842, imgWidth := 421, imgHeight := 842, x := 87, y := 0 } ∧
    computeLayout binary64 300 300 =
      { pageWidth := 300, pageHeight := 300, imgWidth := 300, imgHeight := 300, x := 0, y := 0 } ∧
    computeLayout binary64 1000 2000 =
      { pageWidth := 595, pageHeight := 842, imgWidth := 421, imgHeight := 842, x := 87, y := 0 } := by
  refine ⟨?_, ?_, ?_, ?_, ?_, layout_1000_2000⟩
  · intro A width height hw hh
    by_cases h : width > maxWidth ∨ height > maxHeight
    · have h2 : ¬ (width ≤ 595 ∧ height ≤ 842) := by
        simp only [maxWidth, maxHeight, gt_iff_lt] at h
        rintro ⟨a, b⟩
        rcases h with h | h
        · exact absurd a (not_le.mpr h)
        · exact absurd b (not_le.mpr h)
      rw [computeLayout_large _ _ _ h, scale_of_pos _ _ _ hw hh]
      simp [specLayout, h2, maxWidth, maxHeight]
    · have h2 : width ≤ 595 ∧ height ≤ 842 := by
        simp only [maxWidth, maxHeight, gt_iff_lt, not_or, not_lt] at h
        exact h
      rw [computeLayout_small _ _ _ h]
      simp [specLayout, h2]
  · norm_num [computeLayout, exact, maxWidth, maxHeight, scale]
  · norm_num [exact, maxWidth, maxHeight, scale]
  · norm_num [computeLayout, exact, maxWidth, maxHeight, scale]
  · rw [computeLayout_small _ _ _ (by norm_num [maxWidth, maxHeight])]
    simp [binary64, roundDouble_zero]

theorem computeLayout_eq_specLayout_witness :
    (0 : ℚ) < 1000 ∧ (0 : ℚ) < 2000 ∧
    computeLayout exact 1000 2000 = specLayout exact 1000 2000 ∧
    computeLayout binary64 1000 2000 = specLayout binary64 1000 2000 :=
  ⟨by norm_num, by norm_num,
    computeLayout_eq_specLayout.1 exact 1000 2000 (by norm_num) (by norm_num),
    computeLayout_eq_specLayout.1 binary64 1000 2000 (by norm_num) (by norm_num)⟩

/-- C2 holds of the layout the comment of line 61 announces, not of the one
the code computes: for an image of 1284 by 2778 pixels the rounding of lines
63-70 makes the placed image `842 + 2^-43` high on a page of height 842, drawn
at `y = -2^-44`, so the image is not within its page and an offset is
negative. -/
theorem computeLayout_overflows_page :
    (computeLayout binary64 1284 2778).pageHeight = 842 ∧
    (computeLayout binary64 1284 2778).imgHeight = 842 + 1 / 2 ^ 43 ∧
    (computeLayout binary64 1284 2778).pageHeight < (computeLayout binary64 1284 2778).imgHeight ∧
    (computeLayout binary64 1284 2778).y = -(1 / 2 ^ 44) ∧
    (computeLayout binary64 1284 2778).y < 0 ∧
    (computeLayout binary64 1284 2778).pageHeight <
      (computeLayout binary64 1284 2778).y + (computeLayout binary64 1284 2778).imgHeight ∧
    (∀ pixels : Bytes,
      (pageFor { width := 1284, height := 2778, pixels := pixels }).height = 842 ∧
      ∃ d, (pageFor { width := 1284, height := 2778, pixels := pixels }).drawn = [d] ∧
        d.height = 842 + 1 / 2 ^ 43 ∧ d.y = -(1 / 2 ^ 44)) := by
  have hp : ∀ pixels : Bytes,
      computeLayout binary64
        ((({ width := 1284, height := 2778, pixels := pixels } : PDFImage).width : ℕ) : ℚ)
        ((({ width := 1284, height := 2778, pixels := pixels } : PDFImage).height : ℕ) : ℚ) =
      computeLayout binary64 1284 2778 := by
    intro pixels
    norm_num
  refine ⟨?_, ?_, ?_, ?_, ?_, ?_, ?_⟩
  · rw [layout_1284_2778]
  · rw [layout_1284_2778]; norm_num
  · rw [layout_1284_2778]; norm_num
  · rw [layout_1284_2778]; norm_num
  · rw [layout_1284_2778]; norm_num
  · rw [layout_1284_2778]; norm_num
  · intro pixels
    unfold pageFor
    simp only [hp pixels]
    rw [layout_1284_2778]
    refine ⟨rfl, _, rfl, ?_, ?_⟩ <;> norm_num

/-- C3, as stated, fails: for an image of 1284 by 2778 pixels the placed size
computed on lines 69-70 does not satisfy `imgWidth * height = imgHeight * width`. -/
theorem aspect_ratio_counterexample :
    (computeLayout binary64 1284 2778).imgWidth * 2778 ≠
      (computeLayout binary64 1284 2778).imgHeight * 1284 := by
  rw [layout_1284_2778]
  norm_num

theorem aspect_ratio_bound (width height : ℚ) (hw : 0 < width) (hh : 0 < height) :
    0 < (computeLayout binary64 width height).imgHeight ∧
    |(computeLayout binary64 width height).imgWidth * height -
        (computeLayout binary64 width height).imgHeight * width| ≤
      1 / 2 ^ 51 * ((computeLayout binary64 width height).imgHeight * width) ∧
    |(computeLayout binary64 width height).imgWidth /
        (computeLayout binary64 width height).imgHeight - width / height| ≤
      1 / 2 ^ 51 * (width / height) ∧
    |(computeLayout binary64 width height).imgWidth /
        (computeLayout binary64 width height).imgHeight - width / height| ≤
      1 / 1000 * (width / height) ∧
    (width ≤ 595 → height ≤ 842 →
      (computeLayout binary64 width height).imgWidth * height =
        (computeLayout binary64 width height).imgHeight * width) := by
  have key : ∀ iw ih : ℚ, 0 < ih → |iw * height - ih * width| ≤ 1 / 2 ^ 51 * (ih * width) →
      |iw / ih - width / height| ≤ 1 / 2 ^ 51 * (width / height) ∧
      |iw / ih - width / height| ≤ 1 / 1000 * (width / height) := by
    intro iw ih hih hab
    have h1 : iw / ih - width / height = (iw * height - ih * width) / (ih * height) := by
      field_simp
    have h2 : |iw / ih - width / height| ≤ 1 / 2 ^ 51 * (width / height) := by
      rw [h1, abs_div, abs_of_pos (mul_pos hih hh), div_le_iff₀ (mul_pos hih hh)]
      have h3 : 1 / 2 ^ 51 * (width / height) * (ih * height) = 1 / 2 ^ 51 * (ih * width) := by
        field_simp
        ring
      rw [h3]
      exact hab
    have h4 : (0 : ℚ) ≤ width / height := (div_pos hw hh).le
    exact ⟨h2, le_trans h2 (mul_le_mul_of_nonneg_right (by norm_num) h4)⟩
  by_cases h : width > maxWidth ∨ height > maxHeight
  · have hcap : ¬ (width ≤ 595 ∧ height ≤ 842) := by
      simp only [maxWidth, maxHeight, gt_iff_lt] at h
      rintro ⟨c, d⟩
      rcases h with h | h
      · exact absurd c (not_le.mpr h)
      · exact absurd d (not_le.mpr h)
    have hs := scale_pos width height hw hh
    have ha := roundDouble_bounds (width * scale binary64 width height) (mul_pos hw hs)
    have hb := roundDouble_bounds (height * scale binary64 width height) (mul_pos hh hs)
    have hpos := roundDouble_pos (height * scale binary64 width height) (mul_pos hh hs)
    have hP : 0 < width * height * scale binary64 width height := mul_pos (mul_pos hw hh) hs
    have hab : |roundDouble (width * scale binary64 width height) * height -
        roundDouble (height * scale binary64 width height) * width| ≤
        1 / 2 ^ 51 * (roundDouble (height * scale binary64 width height) * width) := by
      have a1 := mul_le_mul_of_nonneg_right ha.1 hh.le
      have a2 := mul_le_mul_of_nonneg_right ha.2 hh.le
      have b1 := mul_le_mul_of_nonneg_right hb.1 hw.le
      have b2 := mul_le_mul_of_nonneg_right hb.2 hw.le
      rw [abs_le]
      constructor <;> nlinarith [a1, a2, b1, b2, hP]
    rw [computeLayout_large _ _ _ h]
    have k := key _ _ hpos hab
    exact ⟨hpos, hab, k.1, k.2, fun c d => absurd ⟨c, d⟩ hcap⟩
  · rw [computeLayout_small _ _ _ h]
    have hab : |width * height - height * width| ≤ 1 / 2 ^ 51 * (height * width) := by
      rw [mul_comm width height, sub_self, abs_zero]
      have := mul_pos hh hw
      positivity
    have k := key width height hh hab
    exact ⟨hh, hab, k.1, k.2, fun _ _ => mul_comm _ _⟩

/-- C3, amended: for positive whole pixel dimensions the placed image keeps the
aspect ratio of the source up to the rounding of lines 63-70: `imgWidth *
height` and `imgHeight * width` differ by at most `2^-51` of the latter, so
`imgWidth / imgHeight` is within `2^-51`, hence within `1e-3`, of `width /
height` relatively; they are equal when the image is not scaled. -/
theorem computeLayout_aspect_ratio (width height : ℕ) (hw : 0 < width) (hh : 0 < height) :
    0 < (computeLayout binary64 width height).imgHeight ∧
    |(computeLayout binary64 width height).imgWidth * height -
        (computeLayout binary64 width height).imgHeight * width| ≤
      1 / 2 ^ 51 * ((computeLayout binary64 width height).imgHeight * width) ∧
    |(computeLayout binary64 width height).imgWidth /
        (computeLayout binary64 width height).imgHeight - (width : ℚ) / height| ≤
      1 / 2 ^ 51 * ((width : ℚ) / height) ∧
    |(computeLayout binary64 width height).imgWidth /
        (computeLayout binary64 width height).imgHeight - (width : ℚ) / height| ≤
      1 / 1000 * ((width : ℚ) / height) ∧
    (width ≤ 595 → height ≤ 842 →
      (computeLayout binary64 width height).imgWidth * height =
        (computeLayout binary64 width height).imgHeight * width) := by
  have hW : (0 : ℚ) < width := by exact_mod_cast hw
  have hH : (0 : ℚ) < height := by exact_mod_cast hh
  obtain ⟨a, b, c, d, e⟩ := aspect_ratio_bound width height hW hH
  refine ⟨a, b, c, d, fun h1 h2 => e ?_ ?_⟩
  · exact_mod_cast h1
  · exact_mod_cast h2

theorem computeLayout_aspect_ratio_witness :
    0 < 1284 ∧ 0 < 2778 ∧
    |(computeLayout binary64 (1284 : ℕ) (2778 : ℕ)).imgWidth /
        (computeLayout binary64 (1284 : ℕ) (2778 : ℕ)).imgHeight -
        ((1284 : ℕ) : ℚ) / (2778 : ℕ)| ≤
      1 / 1000 * (((1284 : ℕ) : ℚ) / (2778 : ℕ)) :=
  ⟨by norm_num, by norm_num,
    (computeLayout_aspect_ratio 1284 2778 (by norm_num) (by norm_num)).2.2.2.1⟩

/-- C10, as stated, fails: for an image of 1242 by 2208 pixels the placed
size computed on lines 69-70 touches neither 595 nor 842, and neither offset
is 0. -/
theorem scaled_touches_counterexample :
    (computeLayout binary64 1242 2208).imgWidth ≠ 595 ∧
    (computeLayout binary64 1242 2208).imgHeight ≠ 842 ∧
    (computeLayout binary64 1242 2208).imgHeight = 842 - 1 / 2 ^ 43 ∧
    (computeLayout binary64 1242 2208).x ≠ 0 ∧
    (computeLayout binary64 1242 2208).y ≠ 0 := by
  rw [layout_1242_2208]
  norm_num

/-- C10, amended: for positive whole pixel dimensions exceeding a cap, the
scaled image touches the A4 envelope in one dimension at least up to the
rounding of lines 63-70 (`imgWidth` within `595 * 2^-51` of 595, or
`imgHeight` within `842 * 2^-51` of 842), so one offset at least is within
`1e-12` of 0, and the scale factor lies strictly between 0 and 1. -/
theorem computeLayout_scaled_touches (width height : ℕ) (hw : 0 < width) (hh : 0 < height)
    (h : width > 595 ∨ height > 842) :
    (computeLayout binary64 width height).imgWidth =
      roundDouble (width * scale binary64 width height) ∧
    (computeLayout binary64 width height).imgHeight =
      roundDouble (height * scale binary64 width height) ∧
    (|(computeLayout binary64 width height).imgWidth - 595| ≤ 595 / 2 ^ 51 ∨
      |(computeLayout binary64 width height).imgHeight - 842| ≤ 842 / 2 ^ 51) ∧
    (|(computeLayout binary64 width height).x| ≤ 1 / 10 ^ 12 ∨
      |(computeLayout binary64 width height).y| ≤ 1 / 10 ^ 12) ∧
    0 < scale binary64 width height ∧ scale binary64 width height < 1 := by
  have hW : (0 : ℚ) < width := by exact_mod_cast hw
  have hH : (0 : ℚ) < height := by exact_mod_cast hh
  have h2 : (width : ℚ) > maxWidth ∨ (height : ℚ) > maxHeight := by
    rcases h with h | h
    · left; show (595 : ℚ) < width; exact_mod_cast h
    · right; show (842 : ℚ) < height; exact_mod_cast h
  have hsc := scale_of_pos binary64 width height hW hH
  have hlt : scale binary64 width height < 1 := by
    rw [hsc]
    rcases h with h | h
    · have hge : (596 : ℚ) ≤ width := by exact_mod_cast h
      have hq : maxWidth / (width : ℚ) ≤ 595 / 596 := by
        rw [maxWidth, div_le_div_iff₀ hW (by norm_num)]
        linarith
      have hb := (roundDouble_bounds (maxWidth / (width : ℚ))
        (div_pos (by norm_num [maxWidth]) hW)).2
      have : roundDouble (maxWidth / (width : ℚ)) < 1 := by nlinarith
      exact lt_of_le_of_lt (min_le_left _ _) this
    · have hge : (843 : ℚ) ≤ height := by exact_mod_cast h
      have hq : maxHeight / (height : ℚ) ≤ 842 / 843 := by
        rw [maxHeight, div_le_div_iff₀ hH (by norm_num)]
        linarith
      have hb := (roundDouble_bounds (maxHeight / (height : ℚ))
        (div_pos (by norm_num [maxHeight]) hH)).2
      have : roundDouble (maxHeight / (height : ℚ)) < 1 := by nlinarith
      exact lt_of_le_of_lt (min_le_right _ _) this
  rw [computeLayout_large _ _ _ h2]
  refine ⟨rfl, rfl, ?_, ?_, scale_pos _ _ hW hH, hlt⟩
  · rcases le_total (roundDouble (maxWidth / (width : ℚ))) (roundDouble (maxHeight / (height : ℚ)))
      with hm | hm
    · left
      show |roundDouble ((width : ℚ) * scale binary64 width height) - 595| ≤ 595 / 2 ^ 51
      rw [hsc]
      show |roundDouble ((width : ℚ) * min (roundDouble (maxWidth / width))
        (roundDouble (maxHeight / height))) - 595| ≤ 595 / 2 ^ 51
      rw [min_eq_left hm]
      exact scaled_near_cap 595 width (by norm_num) hW
    · right
      show |roundDouble ((height : ℚ) * scale binary64 width height) - 842| ≤ 842 / 2 ^ 51
      rw [hsc]
      show |roundDouble ((height : ℚ) * min (roundDouble (maxWidth / width))
        (roundDouble (maxHeight / height))) - 842| ≤ 842 / 2 ^ 51
      rw [min_eq_right hm]
      exact scaled_near_cap 842 height (by norm_num) hH
  · rcases le_total (roundDouble (maxWidth / (width : ℚ))) (roundDouble (maxHeight / (height : ℚ)))
      with hm | hm
    · left
      show |roundDouble (roundDouble (maxWidth -
        roundDouble ((width : ℚ) * scale binary64 width height)) / 2)| ≤ 1 / 10 ^ 12
      rw [hsc]
      show |roundDouble (roundDouble (595 - roundDouble ((width : ℚ) *
        min (roundDouble (maxWidth / width)) (roundDouble (maxHeight / height)))) / 2)| ≤ _
      rw [min_eq_left hm]
      have := offset_small 595 _ _ (scaled_near_cap 595 width (by norm_num) hW)
      refine le_trans this ?_
      norm_num
    · right
      show |roundDouble (roundDouble (maxHeight -
        roundDouble ((height : ℚ) * scale binary64 width height)) / 2)| ≤ 1 / 10 ^ 12
      rw [hsc]
      show |roundDouble (roundDouble (842 - roundDouble ((height : ℚ) *
        min (roundDouble (maxWidth / width)) (roundDouble (maxHeight / height)))) / 2)| ≤ _
      rw [min_eq_right hm]
      have := offset_small 842 _ _ (scaled_near_cap 842 height (by norm_num) hH)
      refine le_trans this ?_
      norm_num

theorem computeLayout_scaled_touches_witness :
    0 < 1242 ∧ 0 < 2208 ∧ (1242 > 595 ∨ 2208 > 842) ∧
    (|(computeLayout binary64 (1242 : ℕ) (2208 : ℕ)).imgWidth - 595| ≤ 595 / 2 ^ 51 ∨
      |(computeLayout binary64 (1242 : ℕ) (2208 : ℕ)).imgHeight - 842| ≤ 842 / 2 ^ 51) :=
  ⟨by norm_num, by norm_num, Or.inl (by norm_num),
    (computeLayout_scaled_touches 1242 2208 (by norm_num) (by norm_num)
      (Or.inl (by norm_num))).2.2.1⟩

theorem extname_examples :
    extname "A.PNG" = ".PNG" ∧ toLowerCase (extname "A.PNG") = ".png" ∧
    extname "/x.y/.bashrc" = "" ∧ extname "/x.y/a.tar.gz/" = ".gz" ∧
    extname ".." = "" ∧ extname "a." = "." ∧ extname "a" = "" ∧
    extname "/srv/up.loads/scan" = "" := by
  decide

/-- A PNG decoder that throws a string leaves the `catch` block without a
message to read: the error thrown says `undefined`. -/
theorem corrupt_png_message (now : Nat) :
    (generatePdfFromImages (sampleEnv now) (some ["bad.png"])).result =
      .error (.error "Failed to generate PDF: undefined") := by
  have hl : (loadImage (sampleEnv now) "bad.png").result = .error .bare := by
    rw [loadImage_of_read (sampleEnv now) "bad.png" [1] (by simp [sampleEnv])]
    have h1 : toLowerCase (extname "bad.png") = ".png" := by decide
    unfold embedImage
    simp only [h1]
    rfl
  have h := (no_write_of_load_error (sampleEnv now) ["bad.png"] (by simp) .bare
    (processImages_error (sampleEnv now) [] "bad.png" [] .bare (by simp) hl _)).1
  rw [h]
  rfl

/-! ### The claims on the call -/

/-- C4: for a non-empty list of paths with extensions `.png`, `.jpg` or
`.jpeg` whose files all decode, the loop builds, and `save` receives, a document
with as many pages as there are inputs, whose i-th page carries the layout and
the image of the i-th input, none of them empty; and the call returns the
output path once `save` and `writeFile` succeed. -/
theorem generatePdfFromImages_pages (env : Env) (imagePaths : List String)
    (images : List PDFImage) (hne : imagePaths ≠ [])
    (hdec : List.Forall₂ (Decodes env) imagePaths images) :
    ∃ pdfDoc : PDFDocument,
      (processImages env PDFDocument.create imagePaths).result = .ok pdfDoc ∧
      Effect.save pdfDoc ∈ (generatePdfFromImages env (some imagePaths)).effects ∧
      pdfDoc.pages.length = imagePaths.length ∧
      pdfDoc.pages = images.map pageFor ∧
      (∀ i : Nat, pdfDoc.pages[i]? = images[i]?.map pageFor) ∧
      (∀ page ∈ pdfDoc.pages, page.drawn.length = 1) ∧
      (∀ pdfBytes, env.save pdfDoc = .ok pdfBytes →
        env.writeFile (outputPath env) pdfBytes = .ok () →
        (generatePdfFromImages env (some imagePaths)).result = .ok (outputPath env)) := by
  have hload : List.Forall₂ (fun p image => (loadImage env p).result = .ok image)
      imagePaths images :=
    hdec.imp (fun p image h => loadImage_of_decodes env p image h)
  have hp := processImages_ok env imagePaths images hload PDFDocument.create
  have hpages : (images.foldl drawOnNewPage PDFDocument.create).pages = images.map pageFor := by
    rw [foldl_drawOnNewPage_pages]; rfl
  refine ⟨images.foldl drawOnNewPage PDFDocument.create, hp,
    save_mem_effects env imagePaths hne _ hp, ?_, hpages, ?_, ?_, ?_⟩
  · rw [hpages, List.length_map, hdec.length_eq]
  · intro i
    rw [hpages, List.getElem?_map]
  · intro page hpage
    rw [hpages, List.mem_map] at hpage
    obtain ⟨image, _, rfl⟩ := hpage
    rfl
  · intro pdfBytes hs hw
    have hb := generateBody_saved env imagePaths _ pdfBytes hp hs
    have hr : (generateBody env imagePaths).result = .ok (outputPath env) := by
      rw [hb.1, hw]; rfl
    exact (generate_of_body_ok env imagePaths hne _ hr).1

theorem generatePdfFromImages_pages_witness :
    ["a.png", "B.JPG"] ≠ [] ∧
    List.Forall₂ (Decodes (sampleEnv 5)) ["a.png", "B.JPG"]
      [{ width := 300, height := 300, pixels := [7] },
       { width := 1000, height := 2000, pixels := [9] }] ∧
    ∃ pdfDoc : PDFDocument,
      (processImages (sampleEnv 5) PDFDocument.create ["a.png", "B.JPG"]).result = .ok pdfDoc ∧
      pdfDoc.pages.length = 2 := by
  have h1 : Decodes (sampleEnv 5) "a.png" { width := 300, height := 300, pixels := [7] } :=
    ⟨[300, 300, 7], by simp [sampleEnv], Or.inl ⟨by decide, by simp [sampleEnv]⟩⟩
  have h2 : Decodes (sampleEnv 5) "B.JPG" { width := 1000, height := 2000, pixels := [9] } :=
    ⟨[1000, 2000, 9], by simp [sampleEnv], Or.inr ⟨Or.inl (by decide), by simp [sampleEnv]⟩⟩
  have hd := List.Forall₂.cons h1 (List.Forall₂.cons h2 List.Forall₂.nil)
  obtain ⟨pdfDoc, hp, _, hl, _⟩ :=
    generatePdfFromImages_pages (sampleEnv 5) ["a.png", "B.JPG"] _ (by simp) hd
  exact ⟨by simp, hd, pdfDoc, hp, hl⟩

/-- C5: the decoder is chosen by the lower-cased extension of the path alone,
whatever the bytes read from the file: `.png` calls the PNG decoder, `.jpg` and `.jpeg` the JPEG
decoder, in any letter case (`A.PNG`); `.webp` throws the error that asks to
convert to JPG or PNG first; every other extension, the empty one included,
throws an error that names the extension. -/
theorem embedImage_dispatch (env : Env) (imagePath : String) (imageBytes : Bytes) :
    (toLowerCase (extname imagePath) = ".png" →
      embedImage env imagePath imageBytes =
        Run.call (.embedPng imageBytes) (env.embedPng imageBytes)) ∧
    (toLowerCase (extname imagePath) = ".jpg" ∨ toLowerCase (extname imagePath) = ".jpeg" →
      embedImage env imagePath imageBytes =
        Run.call (.embedJpg imageBytes) (env.embedJpg imageBytes)) ∧
    (toLowerCase (extname imagePath) = ".webp" →
      embedImage env imagePath imageBytes = Run.throw (.error
        ("WebP format requires additional processing. Please " ++
          "convert to JPG or PNG first" ++ "."))) ∧
    (toLowerCase (extname imagePath) ∉ [".png", ".jpg", ".jpeg", ".webp"] →
      embedImage env imagePath imageBytes =
        Run.throw (.error ("Unsupported image format: " ++ toLowerCase (extname imagePath)))) ∧
    embedImage env "A.PNG" imageBytes =
      Run.call (.embedPng imageBytes) (env.embedPng imageBytes) ∧
    embedImage env "/tmp/Photo.JpEg" imageBytes =
      Run.call (.embedJpg imageBytes) (env.embedJpg imageBytes) ∧
    embedImage env "scan.JPG" imageBytes =
      Run.call (.embedJpg imageBytes) (env.embedJpg imageBytes) ∧
    embedImage env "README" imageBytes = Run.throw (.error "Unsupported image format: ") ∧
    embedImage env "anim.gif" imageBytes = Run.throw (.error "Unsupported image format: .gif") ∧
    (env.readFile imagePath = .ok imageBytes →
      (loadImage env imagePath).result = (embedImage env imagePath imageBytes).result) := by
  have hgen : ∀ p : String,
      (toLowerCase (extname p) = ".png" →
        embedImage env p imageBytes = Run.call (.embedPng imageBytes) (env.embedPng imageBytes)) ∧
      (toLowerCase (extname p) = ".jpg" ∨ toLowerCase (extname p) = ".jpeg" →
        embedImage env p imageBytes = Run.call (.embedJpg imageBytes) (env.embedJpg imageBytes)) ∧
      (toLowerCase (extname p) = ".webp" →
        embedImage env p imageBytes = Run.throw (.error
          ("WebP format requires additional processing. Please " ++
            "convert to JPG or PNG first" ++ "."))) ∧
      (toLowerCase (extname p) ∉ [".png", ".jpg", ".jpeg", ".webp"] →
        embedImage env p imageBytes =
          Run.throw (.error ("Unsupported image format: " ++ toLowerCase (extname p)))) := by
    intro p
    refine ⟨fun h => ?_, fun h => ?_, fun h => ?_, fun h => ?_⟩
    · simp [embedImage, h]
    · have hp : toLowerCase (extname p) ≠ ".png" := by
        rcases h with h | h <;> rw [h] <;> decide
      simp [embedImage, hp, h]
    · have e : ("WebP format requires additional processing. Please " ++
          "convert to JPG or PNG first" ++ "." : String) =
          "WebP format requires additional processing. Please convert to JPG or PNG first." := by
        decide
      rw [e]
      unfold embedImage
      simp only [h]
      rfl
    · simp only [List.mem_cons, List.mem_singleton, List.not_mem_nil, or_false, not_or] at h
      simp [embedImage, h.1, h.2.1, h.2.2.1, h.2.2.2]
  refine ⟨(hgen imagePath).1, (hgen imagePath).2.1, (hgen imagePath).2.2.1,
    (hgen imagePath).2.2.2, ?_, ?_, ?_, ?_, ?_, loadImage_of_read env imagePath imageBytes⟩
  · exact (hgen "A.PNG").1 (by decide)
  · exact (hgen "/tmp/Photo.JpEg").2.1 (Or.inr (by decide))
  · exact (hgen "scan.JPG").2.1 (Or.inl (by decide))
  · have h := (hgen "README").2.2.2 (by decide)
    have e : toLowerCase (extname "README") = "" := by decide
    rw [h, e]; rfl
  · have h := (hgen "anim.gif").2.2.2 (by decide)
    have e : toLowerCase (extname "anim.gif") = ".gif" := by decide
    rw [h, e]; rfl

theorem embedImage_dispatch_witness :
    toLowerCase (extname "c.webp") = ".webp" ∧
    embedImage (sampleEnv 5) "c.webp" [10, 10] = Run.throw (.error
      ("WebP format requires additional processing. Please " ++
        "convert to JPG or PNG first" ++ ".")) :=
  ⟨by decide, (embedImage_dispatch (sampleEnv 5) "c.webp" [10, 10]).2.2.1 (by decide)⟩

/-- C6: called with an empty list, or with `null` or `undefined`, the function
throws the error `No images provided for PDF generation` and performs no
effect: no document is created, no file is read, none is written. -/
theorem generatePdfFromImages_empty (env : Env) :
    (generatePdfFromImages env (some [])).result =
      .error (.error "No images provided for PDF generation") ∧
    (generatePdfFromImages env (some [])).effects = [] ∧
    (generatePdfFromImages env none).result =
      .error (.error "No images provided for PDF generation") ∧
    (generatePdfFromImages env none).effects = [] := by
  simp [generatePdfFromImages, Run.throw]

/-- C7: conversion is all-or-nothing.  When the images before some image
load and that image fails (its file cannot be read, its extension is not
supported, or its bytes do not decode), and likewise when all images load and
`save` fails, the call fails with what the `catch` block throws for that first
failure, which for an `Error` with a message is the wrapped message, and
never calls `writeFile`, whatever came before; so for one valid PNG followed
by a file tagged `.webp`. -/
theorem generatePdfFromImages_all_or_nothing (env : Env) :
    (∀ (pre : List String) (imagePath : String) (post : List String) (cause : Thrown),
      (∀ p ∈ pre, ∃ image, (loadImage env p).result = .ok image) →
      (loadImage env imagePath).result = .error cause →
      (generatePdfFromImages env (some (pre ++ imagePath :: post))).result =
        .error (rethrown cause) ∧
      ∀ e ∈ (generatePdfFromImages env (some (pre ++ imagePath :: post))).effects,
        e.isWriteFile = false) ∧
    (∀ (imagePaths : List String) (pdfDoc : PDFDocument) (cause : Thrown),
      imagePaths ≠ [] →
      (processImages env PDFDocument.create imagePaths).result = .ok pdfDoc →
      env.save pdfDoc = .error cause →
      (generatePdfFromImages env (some imagePaths)).result = .error (rethrown cause) ∧
      ∀ e ∈ (generatePdfFromImages env (some imagePaths)).effects, e.isWriteFile = false) ∧
    (∀ message : String,
      rethrown (.error message) = .error ("Failed to generate PDF: " ++ message)) ∧
    ((generatePdfFromImages (sampleEnv 5) (some ["a.png", "c.webp"])).result =
        .error (.error ("Failed to generate PDF: " ++
          "WebP format requires additional processing. Please convert to JPG or PNG first.")) ∧
      ∀ e ∈ (generatePdfFromImages (sampleEnv 5) (some ["a.png", "c.webp"])).effects,
        e.isWriteFile = false) := by
  have hA : ∀ (env : Env) (pre : List String) (imagePath : String) (post : List String)
      (cause : Thrown),
      (∀ p ∈ pre, ∃ image, (loadImage env p).result = .ok image) →
      (loadImage env imagePath).result = .error cause →
      (generatePdfFromImages env (some (pre ++ imagePath :: post))).result =
        .error (rethrown cause) ∧
      ∀ e ∈ (generatePdfFromImages env (some (pre ++ imagePath :: post))).effects,
        e.isWriteFile = false := by
    intro env pre imagePath post cause hpre hfail
    exact no_write_of_load_error env _ (by simp) cause
      (processImages_error env pre imagePath post cause hpre hfail _)
  refine ⟨hA env, ?_, rethrown_error, ?_⟩
  · intro imagePaths pdfDoc cause hne hp hs
    exact no_write_of_save_error env imagePaths hne pdfDoc cause hp hs
  · refine hA (sampleEnv 5) ["a.png"] "c.webp" [] _ ?_ (sample_webp_fails 5)
    intro p hp
    rw [List.mem_singleton] at hp
    subst hp
    exact ⟨_, loadImage_of_decodes _ _ _ (sample_decodes_png 5)⟩

theorem generatePdfFromImages_all_or_nothing_witness :
    (∀ p ∈ ["a.png"], ∃ image, (loadImage (sampleEnv 7) p).result = .ok image) ∧
    (loadImage (sampleEnv 7) "c.webp").result = .error (.error
      "WebP format requires additional processing. Please convert to JPG or PNG first.") ∧
    (generatePdfFromImages (sampleEnv 7) (some (["a.png"] ++ "c.webp" :: ["B.JPG"]))).result =
      .error (.error ("Failed to generate PDF: " ++
        "WebP format requires additional processing. Please convert to JPG or PNG first.")) := by
  have hpre : ∀ p ∈ ["a.png"], ∃ image, (loadImage (sampleEnv 7) p).result = .ok image := by
    intro p hp
    rw [List.mem_singleton] at hp
    subst hp
    exact ⟨_, loadImage_of_decodes _ _ _ (sample_decodes_png 7)⟩
  exact ⟨hpre, sample_webp_fails 7,
    ((generatePdfFromImages_all_or_nothing (sampleEnv 7)).1 ["a.png"] "c.webp" ["B.JPG"] _
      hpre (sample_webp_fails 7)).1⟩

/-- C8, as stated, fails: the error thrown for an empty list does not start
with `Failed to generate PDF: `. -/
theorem error_prefix_counterexample :
    ¬ ∀ (env : Env) (imagePaths : Option (List String)) (thrown : Thrown),
      (generatePdfFromImages env imagePaths).result = .error thrown →
      ∃ cause : String, thrown = .error ("Failed to generate PDF: " ++ cause) := by
  intro h
  have he : (generatePdfFromImages (sampleEnv 0) (some [])).result =
      .error (.error "No images provided for PDF generation") := by
    rw [(generate_empty (sampleEnv 0)).1]; rfl
  obtain ⟨cause, hc⟩ := h (sampleEnv 0) (some []) _ he
  have hc2 : "No images provided for PDF generation" = "Failed to generate PDF: " ++ cause :=
    Thrown.error.inj hc
  have hd := congrArg String.data hc2
  rw [String.data_append] at hd
  have h0 := congrArg List.head? hd
  have h1 : ("Failed to generate PDF: ".data ++ cause.data).head? = some 'F' := rfl
  rw [h1] at h0
  revert h0
  decide

/-- C8, amended: every error thrown for a non-empty list is thrown by the
`catch` block for a value thrown inside the `try` block (by the first image
that fails to load, by `save` or by `writeFile`), and when that value is an
`Error` carrying a message it is a single `Error` whose message is `Failed to
generate PDF: ` followed by that message; the error for an empty list is
thrown before the `try` block with its own message, unwrapped. -/
theorem generatePdfFromImages_error_wrapped (env : Env) (imagePaths : List String)
    (hne : imagePaths ≠ []) (thrown : Thrown)
    (h : (generatePdfFromImages env (some imagePaths)).result = .error thrown) :
    (∃ cause : Thrown, (generateBody env imagePaths).result = .error cause ∧
      (∀ message : String, cause = .error message →
        thrown = .error ("Failed to generate PDF: " ++ message)) ∧
      ((processImages env PDFDocument.create imagePaths).result = .error cause ∨
        ∃ pdfDoc, (processImages env PDFDocument.create imagePaths).result = .ok pdfDoc ∧
          (env.save pdfDoc = .error cause ∨
            ∃ pdfBytes, env.save pdfDoc = .ok pdfBytes ∧
              env.writeFile (outputPath env) pdfBytes = .error cause))) ∧
    (generatePdfFromImages env (some [])).result =
      .error (.error "No images provided for PDF generation") ∧
    (generatePdfFromImages env none).result =
      .error (.error "No images provided for PDF generation") := by
  refine ⟨?_, by rw [(generate_empty env).1]; rfl, by rw [(generate_empty env).2]; rfl⟩
  cases hb : (generateBody env imagePaths).result with
  | ok out =>
    rw [(generate_of_body_ok env imagePaths hne out hb).1] at h
    cases h
  | error cause =>
    rw [(generate_of_body_error env imagePaths hne cause hb).1] at h
    refine ⟨cause, rfl, ?_, body_error_cases env imagePaths cause hb⟩
    intro message hm
    subst hm
    cases h
    rfl

theorem generatePdfFromImages_error_wrapped_witness :
    ["a.png", "c.webp"] ≠ [] ∧
    (generatePdfFromImages (sampleEnv 5) (some ["a.png", "c.webp"])).result =
      .error (.error ("Failed to generate PDF: " ++
        "WebP format requires additional processing. Please convert to JPG or PNG first.")) ∧
    ∃ cause : Thrown, (generateBody (sampleEnv 5) ["a.png", "c.webp"]).result = .error cause ∧
      ∀ message : String, cause = .error message →
        Thrown.error ("Failed to generate PDF: " ++
          "WebP format requires additional processing. Please convert to JPG or PNG first.") =
        .error ("Failed to generate PDF: " ++ message) := by
  have hr : (generatePdfFromImages (sampleEnv 5) (some ["a.png", "c.webp"])).result =
      .error (.error ("Failed to generate PDF: " ++
        "WebP format requires additional processing. Please convert to JPG or PNG first.")) :=
    (no_write_of_load_error (sampleEnv 5) _ (by simp) _
      (processImages_error (sampleEnv 5) ["a.png"] "c.webp" [] _
        (by
          intro p hp
          rw [List.mem_singleton] at hp
          subst hp
          exact ⟨_, loadImage_of_decodes _ _ _ (sample_decodes_png 5)⟩)
        (sample_webp_fails 5) _)).1
  obtain ⟨cause, h1, h2, _⟩ :=
    (generatePdfFromImages_error_wrapped (sampleEnv 5) ["a.png", "c.webp"] (by simp) _ hr).1
  exact ⟨by simp, hr, cause, h1, h2⟩

/-- C9, as stated, fails: two successful calls that read the same millisecond
from `Date.now()` return the same output path. -/
theorem outputPath_collision :
    (generatePdfFromImages (sampleEnv 1700000000000) (some ["a.png"])).result =
      .ok "/srv/backend/uploads/pdf-1700000000000.pdf" ∧
    (generatePdfFromImages (sampleEnv 1700000000000) (some ["B.JPG"])).result =
      .ok "/srv/backend/uploads/pdf-1700000000000.pdf" := by
  have e : outputPath (sampleEnv 1700000000000) = "/srv/backend/uploads/pdf-1700000000000.pdf" := by
    decide
  constructor
  · rw [← e]
    exact generate_success (sampleEnv 1700000000000) ["a.png"] _ (by simp)
      (List.Forall₂.cons (sample_decodes_png _) List.Forall₂.nil) [1] rfl rfl
  · rw [← e]
    exact generate_success (sampleEnv 1700000000000) ["B.JPG"] _ (by simp)
      (List.Forall₂.cons (sample_decodes_jpg _) List.Forall₂.nil) [1] rfl rfl

/-- C9, amended: the output path of a successful call is `path.join` of the
module directory, `../uploads` and the file name `pdf-<Date.now()>.pdf`; so
two successful calls of the same module return the same path when their
readings are equal, and, when `path.join` keeps the file names of this form
apart, distinct paths exactly when their readings differ. -/
theorem outputPath_eq_iff_same_reading (env₁ env₂ : Env)
    (imagePaths₁ imagePaths₂ : Option (List String)) (out₁ out₂ : String)
    (hdir : env₁.dirname = env₂.dirname) (hjoin : env₁.join = env₂.join)
    (h₁ : (generatePdfFromImages env₁ imagePaths₁).result = .ok out₁)
    (h₂ : (generatePdfFromImages env₂ imagePaths₂).result = .ok out₂) :
    out₁ = env₁.join env₁.dirname "../uploads" (fileName env₁.now) ∧
    out₂ = env₁.join env₁.dirname "../uploads" (fileName env₂.now) ∧
    (env₁.now = env₂.now → out₁ = out₂) ∧
    (env₁.now ≠ env₂.now → fileName env₁.now ≠ fileName env₂.now) ∧
    ((∀ a b : Nat, env₁.join env₁.dirname "../uploads" (fileName a) =
        env₁.join env₁.dirname "../uploads" (fileName b) → fileName a = fileName b) →
      (out₁ ≠ out₂ ↔ env₁.now ≠ env₂.now)) := by
  have e₁ := generate_result_ok env₁ imagePaths₁ out₁ h₁
  have e₂ := generate_result_ok env₂ imagePaths₂ out₂ h₂
  subst e₁ e₂
  unfold outputPath
  rw [← hdir, ← hjoin]
  refine ⟨rfl, rfl, fun h => by rw [h], fun h hf => h (fileName_injective _ _ hf), ?_⟩
  intro hinj
  constructor
  · intro hne h
    exact hne (by rw [h])
  · intro hne h
    exact hne (fileName_injective _ _ (hinj _ _ h))

theorem outputPath_eq_iff_same_reading_witness :
    (sampleEnv 1).dirname = (sampleEnv 2).dirname ∧ (sampleEnv 1).join = (sampleEnv 2).join ∧
    (generatePdfFromImages (sampleEnv 1) (some ["a.png"])).result = .ok (outputPath (sampleEnv 1)) ∧
    (generatePdfFromImages (sampleEnv 2) (some ["a.png"])).result = .ok (outputPath (sampleEnv 2)) ∧
    (∀ a b : Nat, (sampleEnv 1).join (sampleEnv 1).dirname "../uploads" (fileName a) =
        (sampleEnv 1).join (sampleEnv 1).dirname "../uploads" (fileName b) →
        fileName a = fileName b) ∧
    (outputPath (sampleEnv 1) ≠ outputPath (sampleEnv 2) ↔ (sampleEnv 1).now ≠ (sampleEnv 2).now) := by
  have hinj : ∀ a b : Nat, (sampleEnv 1).join (sampleEnv 1).dirname "../uploads" (fileName a) =
      (sampleEnv 1).join (sampleEnv 1).dirname "../uploads" (fileName b) →
      fileName a = fileName b := by
    intro a b h
    have hd := congrArg String.data h
    simp only [sampleEnv, String.data_append, List.append_cancel_left_eq] at hd
    exact String.ext hd
  have h1 := generate_success (sampleEnv 1) ["a.png"] _ (by simp)
    (List.Forall₂.cons (sample_decodes_png _) List.Forall₂.nil) [1] rfl rfl
  have h2 := generate_success (sampleEnv 2) ["a.png"] _ (by simp)
    (List.Forall₂.cons (sample_decodes_png _) List.Forall₂.nil) [1] rfl rfl
  exact ⟨rfl, rfl, h1, h2, hinj,
    (outputPath_eq_iff_same_reading (sampleEnv 1) (sampleEnv 2) _ _ _ _ rfl rfl h1 h2).2.2.2.2 hinj⟩

end PdfGenerator
